import Mathlib

/-!
# go-coffeeshop: gateway middleware, startup paths, telemetry shutdown, migrations

A shallow embedding of the parts of the repository that the specification
makes checkable statements about:

* `cmd/proxy/main.go`: `newGateway`, `allowCORS`, `preflightHandler`,
  `withLogger` and `main`;
* `pkg/otel/otel.go`: `Setup` and the shutdown closure it returns;
* `cmd/web/main.go`, `cmd/barista/main.go`: the `main` entry points;
* `internal/counter/app/migrate.go`, `internal/kitchen/app/migrate.go`:
  the two `init` migration routines.

Library calls whose code is outside the repository (net/http, slog, the
OpenTelemetry SDK, golang-migrate) are represented by their documented
behaviour or by parameters that range over all their possible outcomes.
-/

set_option autoImplicit false

namespace Coffeeshop

/-! ## net/http data model -/

/-- The Go type `http.Header`: a map from canonical header names to value
lists, kept as an association list with at most one live entry per key. All
header names written in the source are already in canonical MIME form, so the
canonicalisation done by `Get` and `Set` is the identity on them. -/
structure Header where
  entries : List (String × List String)
  deriving DecidableEq, Repr

namespace Header

/-- The Go method `Header.Get`: first value stored under the key, `""` when
the key is absent or holds an empty list. -/
def Get (h : Header) (key : String) : String :=
  match h.entries.lookup key with
  | some (v :: _) => v
  | _ => ""

/-- The Go method `Header.Set`: replace whatever is stored under the key by
the single value. -/
def Set (h : Header) (key value : String) : Header :=
  ⟨(key, [value]) :: h.entries.filter (fun kv => kv.1 != key)⟩

/-- The empty header map. -/
def empty : Header := ⟨[]⟩

end Header

/-- The fields of `url.URL` the handlers read. -/
structure URL where
  Path : String
  RawQuery : String
  deriving DecidableEq, Repr

/-- The fields of `http.Request` the handlers read. -/
structure Request where
  Method : String
  URL : URL
  Header : Header
  deriving DecidableEq, Repr

/-- Severity of a structured log record. -/
inductive Level where
  | info
  | error
  deriving DecidableEq, Repr

/-- A value attached to a log attribute. -/
inductive Value where
  | str (s : String)
  | url (u : URL)
  deriving DecidableEq, Repr

/-- One record emitted through `slog`: level, message and key/value pairs. -/
structure Record where
  level : Level
  msg : String
  attrs : List (String × Value)
  deriving DecidableEq, Repr

/-- Everything a handler can change while serving one request: the header map
of the `http.ResponseWriter`, the records written to the process logger, and
the requests that have been delivered to a backend service. -/
structure Exchange where
  header : Header
  slog : List Record
  backend : List Request
  deriving DecidableEq, Repr

namespace Exchange

/-- The statement `w.Header().Set(key, value)`. -/
def setHeader (x : Exchange) (key value : String) : Exchange :=
  { x with header := x.header.Set key value }

/-- The call `slog.Info(msg, attrs...)`. -/
def info (x : Exchange) (msg : String) (attrs : List (String × Value)) : Exchange :=
  { x with slog := x.slog ++ [⟨Level.info, msg, attrs⟩] }

/-- A fresh exchange: no response header set, nothing logged, nothing sent on. -/
def fresh : Exchange := ⟨Header.empty, [], []⟩

end Exchange

/-- The Go interface `http.Handler`: `ServeHTTP(w, r)` as a state transformer. -/
abbrev Handler := Request → Exchange → Exchange

/-- The Go function `strings.Join`. -/
def stringsJoin (elems : List String) (sep : String) : String :=
  sep.intercalate elems

/-! ## cmd/proxy/main.go: middleware -/

/-- The slice `methods` built inside `preflightHandler`. -/
def preflightMethods : List String := ["GET", "HEAD", "POST", "PUT", "DELETE"]

/-- The slice `headers` built inside `preflightHandler`. -/
def preflightHeaders : List String := ["*"]

/-- The function `preflightHandler` of cmd/proxy/main.go. -/
def preflightHandler (r : Request) (x : Exchange) : Exchange :=
  let x := x.setHeader "Access-Control-Allow-Origin" "*"
  let headers := preflightHeaders
  let x := x.setHeader "Access-Control-Allow-Headers" (stringsJoin headers ",")
  let methods := preflightMethods
  let x := x.setHeader "Access-Control-Allow-Methods" (stringsJoin methods ",")
  x.info "preflight request" [("http_path", Value.str r.URL.Path)]

/-- The function `allowCORS` of cmd/proxy/main.go. -/
def allowCORS (h : Handler) : Handler := fun r x =>
  let origin := r.Header.Get "Origin"
  if origin ≠ "" then
    let x := x.setHeader "Access-Control-Allow-Origin" origin
    if r.Method = "OPTIONS" ∧ r.Header.Get "Access-Control-Request-Method" ≠ "" then
      preflightHandler r x
    else
      h r x
  else
    h r x

/-- The function `withLogger` of cmd/proxy/main.go. -/
def withLogger (h : Handler) : Handler := fun r x =>
  let x := x.info "Run request" [("http_method", Value.str r.Method), ("http_url", Value.url r.URL)]
  h r x

/-- The handler chain installed by `main`: `allowCORS(withLogger(mux))`. -/
def gatewayChain (mux : Handler) : Handler :=
  allowCORS (withLogger mux)

/-- A request is a CORS preflight for `allowCORS` when it carries a non-empty
`Origin`, uses the method `OPTIONS` and carries a non-empty
`Access-Control-Request-Method`. -/
def isPreflight (r : Request) : Prop :=
  r.Header.Get "Origin" ≠ "" ∧ r.Method = "OPTIONS" ∧
    r.Header.Get "Access-Control-Request-Method" ≠ ""

instance (r : Request) : Decidable (isPreflight r) := by
  unfold isPreflight; infer_instance

/-- A backend stand-in that only notes the request it was handed. -/
def recorder : Handler := fun r x =>
  { x with backend := x.backend ++ [r] }

/-- The preflight request used as the running example: `Origin: http://x`,
method `OPTIONS`, `Access-Control-Request-Method: POST`. -/
def samplePreflight : Request :=
  ⟨"OPTIONS", ⟨"/v1/api/item-types", ""⟩,
    ⟨[("Origin", ["http://x"]), ("Access-Control-Request-Method", ["POST"])]⟩⟩

/-- A plain cross-origin `GET`. -/
def sampleGet : Request :=
  ⟨"GET", ⟨"/v1/api/item-types", ""⟩, ⟨[("Origin", ["http://x"])]⟩⟩

/-- An `OPTIONS` request with `Access-Control-Request-Method` but no `Origin`. -/
def sampleNoOrigin : Request :=
  ⟨"OPTIONS", ⟨"/v1/api/item-types", ""⟩, ⟨[("Access-Control-Request-Method", ["POST"])]⟩⟩

/-- The response-side CORS header names. -/
def corsHeaderNames : List String :=
  ["Access-Control-Allow-Origin", "Access-Control-Allow-Headers", "Access-Control-Allow-Methods"]

/-- A handler that does not itself touch CORS headers: each of them reads the
same after the handler as before. -/
def leavesCORS (h : Handler) : Prop :=
  ∀ (r : Request) (x : Exchange), ∀ k ∈ corsHeaderNames, (h r x).header.Get k = x.header.Get k

/-- The state `allowCORS` has produced by the time it leaves its `Origin`
branch: `Access-Control-Allow-Origin` set to the origin when one is present,
the state untouched otherwise. -/
def afterOrigin (r : Request) (x : Exchange) : Exchange :=
  if r.Header.Get "Origin" = "" then x
  else x.setHeader "Access-Control-Allow-Origin" (r.Header.Get "Origin")

/-- The record `withLogger` writes for a request. -/
def runRequestRecord (r : Request) : Record :=
  ⟨Level.info, "Run request", [("http_method", Value.str r.Method), ("http_url", Value.url r.URL)]⟩

/-- The record `preflightHandler` writes for a request. -/
def preflightRecord (r : Request) : Record :=
  ⟨Level.info, "preflight request", [("http_path", Value.str r.URL.Path)]⟩

/-- A record carries the request method when it has an `http_method` attribute. -/
def Record.hasMethod (rec : Record) : Bool :=
  rec.attrs.any (fun kv => kv.1 == "http_method")

/-! ## Errors, contexts and the process trace -/

/-- A Go `error` value: its message and the sentinel errors it matches under
`errors.Is` (itself included when it is a sentinel). -/
structure Error where
  msg : String
  sentinels : List String
  deriving DecidableEq, Repr

/-- The Go function `errors.Is(err, target)` for a sentinel target; a nil
error matches nothing. -/
def errorsIs (err : Option Error) (target : String) : Bool :=
  match err with
  | none => false
  | some e => e.sentinels.contains target

/-- A `context.Context` as far as the entry points build them. -/
inductive Context where
  | background
  | withCancel (parent : Context)
  deriving DecidableEq, Repr

/-- The two backend services the gateway registers. -/
inductive Service where
  | product
  | counter
  deriving DecidableEq, Repr

/-- Calls into the environment that an entry point or `Setup` makes, in the
order they are made. -/
inductive Event where
  | slogError (msg : String) (err : Error)
  | slogInfo (msg : String)
  | glogFatal (msg : String)
  | logPrint (msg : String)
  | setTextMapPropagator
  | setTracerProvider
  | setMeterProvider
  | runtimeStart
  | meterShutdown (c : Context)
  | tracerShutdown (c : Context)
  | register (svc : Service) (endpoint : String)
  | muxHandle (pattern : String)
  | spawn (task : String)
  | listenAndServe (addr : String)
  | echoUse (middleware : String)
  | echoGET (path : String)
  | echoStart (addr : String)
  | configure (what : String)
  | cancel
  | cleanup
  deriving DecidableEq, Repr

/-- How a process run ends: `main` returns, the process is terminated by a
fatal log call (`glog.Fatalf`, `e.Logger.Fatal`), or it dies from a panic. -/
inductive Exit where
  | returned
  | fatal
  | panic (msg : String)
  deriving DecidableEq, Repr

/-- A run of an entry point: what it did and how it ended. -/
structure Run where
  trace : List Event
  exit : Exit
  deriving DecidableEq, Repr

/-! ## pkg/otel/otel.go -/

/-- An SDK provider (`sdktrace.TracerProvider`, `sdkmetric.MeterProvider`) as
far as shutdown is concerned: the result of `Shutdown(c)`, which may depend on
the context and on everything that happened before the call. -/
structure Provider where
  Shutdown : Context → List Event → Option Error

/-- The call `mp.Shutdown(c)`. -/
def meterShutdown (mp : Provider) (c : Context) (t : List Event) : Option Error × List Event :=
  (mp.Shutdown c t, t ++ [Event.meterShutdown c])

/-- The call `tp.Shutdown(c)`. -/
def tracerShutdown (tp : Provider) (c : Context) (t : List Event) : Option Error × List Event :=
  (tp.Shutdown c t, t ++ [Event.tracerShutdown c])

/-- The type `func(context.Context) error` of the shutdown closure. -/
abbrev ShutdownFunc := Context → List Event → Option Error × List Event

/-- An option handed to `otlptracegrpc.New`. -/
inductive TraceOption where
  | withEndpoint (endpoint : String)
  | withInsecure
  deriving DecidableEq, Repr

/-- A non-nil `http.Handler` value, named by what serves it. -/
inductive HttpHandler where
  | promhttp
  | gateway (services : List Service)
  deriving DecidableEq, Repr

/-- What `Setup` gets from outside: the outcome of `resource.New` for a
service name and version, the process environment, the outcomes of
`otlptracegrpc.New` and `otelprom.New`, and the two providers built by the
SDK constructors. -/
structure OtelEnv where
  resourceNew : String → String → Option Error
  getenv : String → String
  traceExporterNew : List TraceOption → Option Error
  promNew : Option Error
  tp : Provider
  mp : Provider

/-- The closure `shutdown` built at the end of `Setup` (otel.go lines 90-94):
`_ = mp.Shutdown(c); return tp.Shutdown(c)`. -/
def Setup.shutdown (mp tp : Provider) : ShutdownFunc := fun c t =>
  let r := meterShutdown mp c t
  tracerShutdown tp c r.2

/-- The three results of `Setup`. -/
structure SetupResult where
  shutdown : Option ShutdownFunc
  handler : Option HttpHandler
  err : Option Error

/-- The function `Setup` of pkg/otel/otel.go. -/
def Setup (env : OtelEnv) (ctx : Context) (serviceName serviceVersion : String)
    (t : List Event) : SetupResult × List Event :=
  match env.resourceNew serviceName serviceVersion with
  | some err => (⟨none, none, some err⟩, t)
  | none =>
    let t := t ++ [Event.setTextMapPropagator]
    let traceOpts : List TraceOption := []
    let endpoint := env.getenv "OTEL_EXPORTER_OTLP_ENDPOINT"
    let traceOpts := if endpoint ≠ "" then traceOpts ++ [TraceOption.withEndpoint endpoint]
      else traceOpts
    let traceOpts := if env.getenv "OTEL_EXPORTER_OTLP_INSECURE" = "true" then
      traceOpts ++ [TraceOption.withInsecure] else traceOpts
    match env.traceExporterNew traceOpts with
    | some err => (⟨none, none, some err⟩, t)
    | none =>
      let t := t ++ [Event.setTracerProvider]
      match env.promNew with
      | some err =>
        let r := tracerShutdown env.tp ctx t
        (⟨none, none, some err⟩, r.2)
      | none =>
        let t := t ++ [Event.setMeterProvider]
        let t := t ++ [Event.runtimeStart]
        (⟨some (Setup.shutdown env.mp env.tp), some HttpHandler.promhttp, none⟩, t)

/-! ## cmd/proxy/main.go: `newGateway` -/

/-- The fields of the proxy `config.Config` that `main` and `newGateway` read. -/
structure ProxyConfig where
  Name : String
  Version : String
  Host : String
  Port : Int
  ProductHost : String
  ProductPort : Int
  CounterHost : String
  CounterPort : Int
  deriving DecidableEq, Repr

/-- The Go call `fmt.Sprintf("%s:%d", host, port)`. -/
def hostPort (host : String) (port : Int) : String :=
  host ++ ":" ++ toString port

/-- The generated registration functions
`gen.RegisterProductServiceHandlerFromEndpoint` and
`gen.RegisterCounterServiceHandlerFromEndpoint`, as parameters: the error each
returns for an endpoint (`none` for nil). On success the service is added to
the mux. -/
structure Registrations where
  product : String → Option Error
  counter : String → Option Error

/-- The function `newGateway` of cmd/proxy/main.go: the handler and error it
returns, with the registration calls it made. -/
def newGateway (reg : Registrations) (cfg : ProxyConfig) :
    (Option HttpHandler × Option Error) × List Event :=
  let productEndpoint := hostPort cfg.ProductHost cfg.ProductPort
  let counterEndpoint := hostPort cfg.CounterHost cfg.CounterPort
  let mux : List Service := []
  let t := [Event.register Service.product productEndpoint]
  match reg.product productEndpoint with
  | some err => ((none, some err), t)
  | none =>
    let mux := mux ++ [Service.product]
    let t := t ++ [Event.register Service.counter counterEndpoint]
    match reg.counter counterEndpoint with
    | some err => ((none, some err), t)
    | none =>
      let mux := mux ++ [Service.counter]
      ((some (HttpHandler.gateway mux), none), t)

/-! ## Entry points -/

/-- The message of the run-time panic raised by using a nil pointer or calling
a nil function value. -/
def nilDereference : String :=
  "runtime error: invalid memory address or nil pointer dereference"

/-- A `http.ServeMux`: the patterns mounted so far, with their handlers. -/
structure ServeMux where
  patterns : List (String × HttpHandler)
  deriving DecidableEq, Repr

/-- The method `(*http.ServeMux).Handle` of net/http, which opens with the
checks `if pattern == "" then panic("http: invalid pattern")` and
`if handler == nil then panic("http: nil handler")` and panics on a pattern
that is already registered; otherwise the handler is mounted. The panic
message is returned as the error. -/
def ServeMux.Handle (mux : ServeMux) (pattern : String) (handler : Option HttpHandler) :
    Except String ServeMux :=
  if pattern = "" then Except.error "http: invalid pattern"
  else
    match handler with
    | none => Except.error "http: nil handler"
    | some h =>
      if mux.patterns.any (fun ph => ph.1 == pattern) then
        Except.error ("http: multiple registrations for " ++ pattern)
      else Except.ok ⟨mux.patterns ++ [(pattern, h)]⟩

/-- A call registered with `defer` in an entry point: `cancel()`, or the
closure that calls `shutdown(context.Background())` on the (possibly nil)
shutdown function returned by `Setup` and drops its result. -/
inductive Deferred where
  | cancel
  | shutdown (f : Option ShutdownFunc)

/-- Running one deferred call: the panic it raises, if any, and the trace. -/
def Deferred.run : Deferred → List Event → Option String × List Event
  | Deferred.cancel, t => (none, t ++ [Event.cancel])
  | Deferred.shutdown none, t => (some nilDereference, t)
  | Deferred.shutdown (some f), t => (none, (f Context.background t).2)

/-- Leaving `main`, by return or by panic: the deferred calls run last-in
first-out (the list holds the latest first); a panic raised by a deferred call
replaces the pending way of leaving. -/
def unwind : List Deferred → Exit → List Event → Run
  | [], e, t => ⟨t, e⟩
  | d :: ds, e, t =>
    match d.run t with
    | (some p, t2) => unwind ds (Exit.panic p) t2
    | (none, t2) => unwind ds e t2

/-- What the proxy `main` gets from outside: the result of
`config.NewConfig()` (pointer and error), the telemetry environment, the
registration outcomes and the error `ListenAndServe` returns once the server
stops. -/
structure ProxyEnv where
  newConfig : Option ProxyConfig × Option Error
  otel : OtelEnv
  reg : Registrations
  serve : Option Error

/-- The function `main` of cmd/proxy/main.go. -/
def Proxy.main (env : ProxyEnv) : Run :=
  let ctx := Context.withCancel Context.background
  let defers := [Deferred.cancel]
  let t : List Event := []
  match env.newConfig with
  | (_, some _) => ⟨t ++ [Event.glogFatal "Config error"], Exit.fatal⟩
  | (none, none) => unwind defers (Exit.panic nilDereference) t
  | (some cfg, none) =>
    let s := Setup env.otel ctx cfg.Name cfg.Version t
    let shutdown := s.1.shutdown
    let metricsHandler := s.1.handler
    let t := match s.1.err with
      | some err => s.2 ++ [Event.slogError "failed to init OpenTelemetry" err]
      | none => s.2
    let defers := Deferred.shutdown shutdown :: defers
    let mux : ServeMux := ⟨[]⟩
    let g := newGateway env.reg cfg
    let gw := g.1.1
    let t := t ++ g.2
    let t := match g.1.2 with
      | some err => t ++ [Event.slogError "failed to create a new gateway" err]
      | none => t
    match mux.Handle "/" gw with
    | Except.error p => unwind defers (Exit.panic p) t
    | Except.ok mux =>
      let t := t ++ [Event.muxHandle "/"]
      match mux.Handle "/metrics" metricsHandler with
      | Except.error p => unwind defers (Exit.panic p) t
      | Except.ok _ =>
        let t := t ++ [Event.muxHandle "/metrics"]
        let t := t ++ [Event.spawn "shut the http server down on ctx.Done"]
        let t := t ++ [Event.slogInfo "start listening..."]
        let t := t ++ [Event.listenAndServe (hostPort cfg.Host cfg.Port)]
        let t := match env.serve with
          | some err =>
            if errorsIs (some err) "http.ErrServerClosed" then
              t ++ [Event.slogError "failed to listen and serve" err]
            else t
          | none => t
        unwind defers Exit.returned t

/-- The Go idiom `v, ok := os.LookupEnv(k); !ok || v == ""`. -/
def unsetOrEmpty (v : Option String) : Bool :=
  match v with
  | none => true
  | some s => s == ""

/-- The Go function `os.Getenv` over a `LookupEnv` view of the environment. -/
def getenvOf (lookupEnv : String → Option String) (key : String) : String :=
  (lookupEnv key).getD ""

/-- What the web `main` gets from outside: the environment, `os.Args`, the
telemetry environment and the outcome of `fs.Sub(embededFiles, "app")`. -/
structure WebEnv where
  lookupEnv : String → Option String
  args : List String
  otel : OtelEnv
  fsSub : Option Error

/-- The function `getFileSystem` of cmd/web/main.go; the error is the panic
raised when `fs.Sub` fails. -/
def getFileSystem (fsSub : Option Error) (useOS : Bool) (t : List Event) :
    Except String Unit × List Event :=
  if useOS then
    (Except.ok (), t ++ [Event.logPrint "using live mode"])
  else
    let t := t ++ [Event.logPrint "using embed mode"]
    match fsSub with
    | some err => (Except.error err.msg, t)
    | none => (Except.ok (), t)

/-- The function `main` of cmd/web/main.go. -/
def Web.main (env : WebEnv) : Run :=
  let ctx := Context.background
  let t : List Event := []
  if unsetOrEmpty (env.lookupEnv "REVERSE_PROXY_URL") then
    ⟨t ++ [Event.glogFatal "web: environment variable not declared: reverseProxyURL"], Exit.fatal⟩
  else if unsetOrEmpty (env.lookupEnv "WEB_PORT") then
    ⟨t ++ [Event.glogFatal "web: environment variable not declared: webPort"], Exit.fatal⟩
  else
    let webPort := getenvOf env.lookupEnv "WEB_PORT"
    let serviceName := getenvOf env.lookupEnv "APP_NAME"
    let serviceName := if serviceName = "" then "web" else serviceName
    let serviceVersion := getenvOf env.lookupEnv "APP_VERSION"
    let serviceVersion := if serviceVersion = "" then "dev" else serviceVersion
    let s := Setup env.otel ctx serviceName serviceVersion t
    match s.1.err with
    | some _ => ⟨s.2 ++ [Event.glogFatal "OpenTelemetry init error"], Exit.fatal⟩
    | none =>
      let defers := [Deferred.shutdown s.1.shutdown]
      let t := s.2 ++ [Event.echoUse "otelecho"]
      let useOS := decide (env.args.length > 1) && (env.args.get? 1 == some "live")
      match getFileSystem env.fsSub useOS t with
      | (Except.error p, t) => unwind defers (Exit.panic p) t
      | (Except.ok _, t) =>
        let t := t ++ [Event.echoGET "/", Event.echoGET "/static/*", Event.echoGET "/metrics",
          Event.echoGET "/reverse-proxy-url"]
        let t := t ++ [Event.echoStart (":" ++ webPort)]
        ⟨t, Exit.fatal⟩

/-- The fields of the barista `config.Config` that `main` reads. -/
structure BaristaConfig where
  Name : String
  Version : String
  HTTPHost : String
  HTTPPort : Int
  deriving DecidableEq, Repr

/-- The three results of `app.InitApp`: whether the application pointer and
the cleanup function are non-nil, and the error. -/
structure InitResult where
  app : Bool
  cleanup : Bool
  err : Option Error
  deriving DecidableEq, Repr

/-- The branch of the final `select` in the barista `main` that fires. -/
inductive Wake where
  | quit
  | ctxDone
  deriving DecidableEq, Repr

/-- What the barista `main` gets from outside. -/
structure BaristaEnv where
  maxprocsSet : Option Error
  newConfig : Option BaristaConfig × Option Error
  otel : OtelEnv
  getenv : String → String
  initApp : InitResult
  wake : Wake

/-- The function `main` of cmd/barista/main.go. Goroutines started with `go`
appear as `spawn` events; what they do afterwards is not part of the trace. -/
def Barista.main (env : BaristaEnv) : Run :=
  let t : List Event := match env.maxprocsSet with
    | some err => [Event.slogError "failed set max procs" err]
    | none => []
  let ctx := Context.withCancel Context.background
  let t := match env.newConfig.2 with
    | some err => t ++ [Event.slogError "failed get config" err]
    | none => t
  match env.newConfig.1 with
  | none => ⟨t, Exit.panic nilDereference⟩
  | some cfg =>
    let t := t ++ [Event.slogInfo "init app"]
    let s := Setup env.otel ctx cfg.Name cfg.Version t
    let shutdown := s.1.shutdown
    let metricsHandler := s.1.handler
    let t := match s.1.err with
      | some err => s.2 ++ [Event.slogError "failed to init OpenTelemetry" err]
      | none => s.2
    let defers := [Deferred.shutdown shutdown]
    let metricsMux : ServeMux := ⟨[]⟩
    match metricsMux.Handle "/metrics" metricsHandler with
    | Except.error p => unwind defers (Exit.panic p) t
    | Except.ok _ =>
      let t := t ++ [Event.muxHandle "/metrics"]
      let metricsPort := env.getenv "METRICS_PORT"
      let metricsPort := if metricsPort = "" then "9464" else metricsPort
      let t := t ++ [Event.spawn "shut the metrics server down on ctx.Done"]
      let t := t ++ [Event.spawn ("metrics server ListenAndServe on :" ++ metricsPort)]
      let a := env.initApp
      let t := match a.err with
        | some err => t ++ [Event.slogError "failed init app" err, Event.cancel]
        | none => t
      if a.app = false then unwind defers (Exit.panic nilDereference) t
      else
        let t := t ++ [Event.configure "CounterOrderPub", Event.configure "Consumer"]
        let t := t ++ [Event.slogInfo "start server..."]
        let t := t ++ [Event.spawn "Consumer.StartConsumer"]
        if a.cleanup = false then unwind defers (Exit.panic nilDereference) t
        else
          let t := t ++ [Event.cleanup]
          let t := match env.wake with
            | Wake.quit => t ++ [Event.slogInfo "signal.Notify"]
            | Wake.ctxDone => t ++ [Event.slogInfo "ctx.Done"]
          unwind defers Exit.returned t

/-- A telemetry environment in which every step of `Setup` succeeds. -/
def otelAllGood : OtelEnv :=
  ⟨fun _ _ => none, fun _ => "", fun _ => none, none, ⟨fun _ _ => none⟩, ⟨fun _ _ => none⟩⟩

/-- A telemetry environment in which `resource.New` fails. -/
def otelNoResource : OtelEnv :=
  { otelAllGood with resourceNew := fun _ _ => some ⟨"resource: detection failed", []⟩ }

/-- A telemetry environment in which `otelprom.New` fails. -/
def otelNoProm : OtelEnv :=
  { otelAllGood with promNew := some ⟨"prometheus: registration failed", []⟩ }

/-- A proxy configuration. -/
def sampleProxyConfig : ProxyConfig :=
  ⟨"proxy", "1.0.0", "0.0.0.0", 5000, "product", 5001, "counter", 5002⟩

/-- Registrations that both succeed. -/
def regAllGood : Registrations := ⟨fun _ => none, fun _ => none⟩

/-- Registrations in which the product service cannot be dialled. -/
def regNoProduct : Registrations :=
  ⟨fun _ => some ⟨"dial product: connection refused", []⟩, fun _ => none⟩

/-- Registrations in which the counter service cannot be dialled. -/
def regNoCounter : Registrations :=
  ⟨fun _ => none, fun _ => some ⟨"dial counter: connection refused", []⟩⟩

/-- The events that come from the telemetry SDK. -/
def Event.isTelemetry : Event → Bool
  | Event.setTextMapPropagator => true
  | Event.setTracerProvider => true
  | Event.setMeterProvider => true
  | Event.runtimeStart => true
  | Event.meterShutdown _ => true
  | Event.tracerShutdown _ => true
  | _ => false

/-- The events that put the process into service: mounting a pattern on a
`http.ServeMux`, `ListenAndServe`, and `e.Start` of the echo server. -/
def Event.isServing : Event → Bool
  | Event.muxHandle _ => true
  | Event.listenAndServe _ => true
  | Event.echoStart _ => true
  | _ => false

/-- The trace of the proxy `main` up to and including its handling of the
`Setup` error. -/
def proxyAfterSetup (env : ProxyEnv) (cfg : ProxyConfig) : List Event :=
  match (Setup env.otel (Context.withCancel Context.background) cfg.Name cfg.Version []).1.err with
  | some err =>
    (Setup env.otel (Context.withCancel Context.background) cfg.Name cfg.Version []).2 ++
      [Event.slogError "failed to init OpenTelemetry" err]
  | none => (Setup env.otel (Context.withCancel Context.background) cfg.Name cfg.Version []).2

/-- A proxy environment whose configuration loads, whose telemetry comes up
and whose product backend cannot be registered. -/
def proxyNoProduct : ProxyEnv :=
  ⟨(some sampleProxyConfig, none), otelAllGood, regNoProduct, none⟩

/-- A proxy environment whose configuration loads and whose telemetry setup
fails at `resource.New`. -/
def proxyNoResource : ProxyEnv :=
  ⟨(some sampleProxyConfig, none), otelNoResource, regAllGood, none⟩

/-- A barista configuration. -/
def sampleBaristaConfig : BaristaConfig := ⟨"barista", "1.0.0", "0.0.0.0", 5003⟩

/-- A barista environment whose telemetry setup fails at `resource.New`. -/
def baristaNoResource : BaristaEnv :=
  ⟨none, (some sampleBaristaConfig, none), otelNoResource, fun _ => "", ⟨true, true, none⟩,
    Wake.quit⟩

/-- The process environment of a web run with both required variables set. -/
def webVars (key : String) : Option String :=
  if key = "REVERSE_PROXY_URL" then some "http://localhost:5000"
  else if key = "WEB_PORT" then some "8888"
  else none

/-- A web environment whose telemetry setup fails at `resource.New`. -/
def webNoResource : WebEnv := ⟨webVars, ["web"], otelNoResource, none⟩

/-- The service name the web `main` passes to `Setup`. -/
def webServiceName (env : WebEnv) : String :=
  if getenvOf env.lookupEnv "APP_NAME" = "" then "web" else getenvOf env.lookupEnv "APP_NAME"

/-- The service version the web `main` passes to `Setup`. -/
def webServiceVersion (env : WebEnv) : String :=
  if getenvOf env.lookupEnv "APP_VERSION" = "" then "dev"
  else getenvOf env.lookupEnv "APP_VERSION"

/-! ## Migration routines -/

/-- The Go function `strconv.ParseBool`: the value and the error. -/
def ParseBool (str : String) : Bool × Option Error :=
  if str = "1" ∨ str = "t" ∨ str = "T" ∨ str = "true" ∨ str = "TRUE" ∨ str = "True" then
    (true, none)
  else if str = "0" ∨ str = "f" ∨ str = "F" ∨ str = "false" ∨ str = "FALSE" ∨ str = "False" then
    (false, none)
  else (false, some ⟨"strconv.ParseBool: parsing " ++ str ++ ": invalid syntax", ["strconv.ErrSyntax"]⟩)

/-- The elements of a path between its `/` separators. -/
def splitSlash : List Char → List (List Char)
  | [] => [[]]
  | c :: cs =>
    match splitSlash cs with
    | [] => if c = '/' then [[], []] else [[c]]
    | w :: ws => if c = '/' then [] :: w :: ws else (c :: w) :: ws

/-- The lexical rules of `filepath.Clean` on a list of path elements: empty
and `.` elements vanish, a `..` removes the element before it, a `..` at the
start of a rooted path vanishes and one at the start of a relative path
stays. The second argument is the output so far, last element first. -/
def cleanStack (rooted : Bool) : List (List Char) → List (List Char) → List (List Char)
  | [], st => st.reverse
  | c :: cs, st =>
    if c = [] ∨ c = ['.'] then cleanStack rooted cs st
    else if c = ['.', '.'] then
      match st with
      | top :: rest =>
        if top = ['.', '.'] then cleanStack rooted cs (c :: st) else cleanStack rooted cs rest
      | [] => if rooted then cleanStack rooted cs [] else cleanStack rooted cs [c]
    else cleanStack rooted cs (c :: st)

/-- The Go function `filepath.Clean` for slash-separated paths; the result of
an empty outcome is `.`. -/
def filepathClean (path : String) : String :=
  let rooted := path.toList.head? == some '/'
  let comps := cleanStack rooted (splitSlash path.toList) []
  let out := (if rooted then "/" else "") ++ "/".intercalate (comps.map String.mk)
  if out = "" then "." else out

/-- The Go function `filepath.Dir` for slash-separated paths: `Clean` of the
path up to and including its last separator. -/
def filepathDir (path : String) : String :=
  filepathClean (String.mk (path.toList.reverse.dropWhile (fun c => c != '/')).reverse)

/-- The package-level `_migrationFilePath` of both migrate.go files. -/
def migrationFilePath : String := "db/migrations"

/-- The constant `_defaultAttempts` of both migrate.go files. -/
def defaultAttempts : Nat := 5

/-- What a migration routine gets from outside: the environment, the working
directory returned by `os.Getwd` (its error is ignored by the code), the
outcome of each `migrate.New(source, database)` call, indexed by the value of
`attempts` at the call, and the outcome of `m.Up()`. -/
structure MigrateEnv where
  lookupEnv : String → Option String
  getwd : String
  migrateNew : Nat → String → String → Option Error
  up : Option Error

/-- What a migration routine does, in order. -/
inductive MigEvent where
  | slogError (msg : String)
  | slogInfo (msg : String) (detail : String)
  | migrateNew (sourceURL databaseURL : String)
  | sleep
  | up
  | close
  deriving DecidableEq, Repr

/-- How a migration routine ends: `init` returns, or `os.Exit(code)`. -/
inductive MigExit where
  | returned
  | osExit (code : Nat)
  deriving DecidableEq, Repr

/-- A run of a migration routine. -/
structure MigRun where
  trace : List MigEvent
  exit : MigExit
  deriving DecidableEq, Repr

/-- The call `fmt.Sprintf("file://%s/%s", filepath.Dir(cur+"/../../.."), _migrationFilePath)`. -/
def relativeSourceURL (cur : String) : String :=
  "file://" ++ filepathDir (cur ++ "/../../..") ++ "/" ++ migrationFilePath

/-- The migration source of internal/counter/app/migrate.go (lines 46-52). -/
def counterSourceURL (env : MigrateEnv) : String :=
  let inDocker := (env.lookupEnv "IN_DOCKER").getD ""
  let dir := "file:///db/migrations"
  let dockered := (ParseBool inDocker).1
  if inDocker ≠ "" ∧ dockered = false then
    let cur := env.getwd
    relativeSourceURL cur
  else dir

/-- The migration source of internal/kitchen/app/migrate.go (lines 44-53). -/
def kitchenSourceURL (env : MigrateEnv) : String :=
  let sourceURL := "file:///db/migrations"
  let inDocker := getenvOf env.lookupEnv "IN_DOCKER"
  if inDocker ≠ "" then
    let dockered := (ParseBool inDocker).1
    if dockered = false then
      let cur := env.getwd
      relativeSourceURL cur
    else sourceURL
  else
    let cur := env.getwd
    relativeSourceURL cur

/-- The rule both routines are described by for a non-empty `IN_DOCKER`
value: the absolute container path when the value parses as boolean true, the
repo-relative path when it parses as false or fails to parse. -/
def describedSourceURL (cwd inDocker : String) : String :=
  if ParseBool inDocker = (true, none) then "file:///db/migrations"
  else "file://" ++ filepathDir (cwd ++ "/../../..") ++ "/db/migrations"

/-- The retry loop of internal/counter/app/migrate.go (lines 45-63): the
final `err` and the trace. The first argument is `attempts`. -/
def counterConnect (env : MigrateEnv) (databaseURL : String) :
    Nat → Option Error → List MigEvent → Option Error × List MigEvent
  | 0, err, t => (err, t)
  | attempts + 1, _, t =>
    let dir := counterSourceURL env
    let t := t ++ [MigEvent.slogInfo "migration source" dir]
    let t := t ++ [MigEvent.migrateNew dir databaseURL]
    match env.migrateNew (attempts + 1) dir databaseURL with
    | none => (none, t)
    | some err =>
      let t := t ++ [MigEvent.slogInfo "Migrate: postgres is trying to connect"
        (toString (attempts + 1))]
      let t := t ++ [MigEvent.sleep]
      counterConnect env databaseURL attempts (some err) t

/-- The retry loop of internal/kitchen/app/migrate.go (lines 42-65). -/
def kitchenConnect (env : MigrateEnv) (databaseURL : String) :
    Nat → Option Error → List MigEvent → Option Error × List MigEvent
  | 0, err, t => (err, t)
  | attempts + 1, _, t =>
    let sourceURL := kitchenSourceURL env
    let t := t ++ [MigEvent.slogInfo "migration source" sourceURL]
    let t := t ++ [MigEvent.migrateNew sourceURL databaseURL]
    match env.migrateNew (attempts + 1) sourceURL databaseURL with
    | none => (none, t)
    | some err =>
      let t := t ++ [MigEvent.slogInfo "Migrate: postgres is trying to connect"
        (toString (attempts + 1))]
      let t := t ++ [MigEvent.sleep]
      kitchenConnect env databaseURL attempts (some err) t

/-- What both routines do once the loop is over (counter lines 65-83, kitchen
lines 67-85). -/
def migrateFinish (env : MigrateEnv) (r : Option Error × List MigEvent) : MigRun :=
  match r.1 with
  | some _ => ⟨r.2 ++ [MigEvent.slogError "Migrate: postgres connect error"], MigExit.osExit 2⟩
  | none =>
    let err := env.up
    let t := r.2 ++ [MigEvent.up]
    if err ≠ none ∧ errorsIs err "migrate.ErrNoChange" = false then
      ⟨t ++ [MigEvent.slogError "Migrate: up error"], MigExit.osExit 2⟩
    else if errorsIs err "migrate.ErrNoChange" = true then
      ⟨t ++ [MigEvent.slogInfo "Migrate: no change" "", MigEvent.close], MigExit.returned⟩
    else
      ⟨t ++ [MigEvent.slogInfo "Migrate: up success" "", MigEvent.close], MigExit.returned⟩

/-- The function `init` of internal/counter/app/migrate.go. -/
def Counter.init (env : MigrateEnv) : MigRun :=
  if unsetOrEmpty (env.lookupEnv "PG_URL") then
    ⟨[MigEvent.slogError "migrate: environment variable not declared: PG_URL"], MigExit.osExit 2⟩
  else
    let databaseURL := (env.lookupEnv "PG_URL").getD ""
    let databaseURL := databaseURL ++ "?sslmode=disable"
    migrateFinish env (counterConnect env databaseURL defaultAttempts none [])

/-- The function `init` of internal/kitchen/app/migrate.go. -/
def Kitchen.init (env : MigrateEnv) : MigRun :=
  if unsetOrEmpty (env.lookupEnv "PG_URL") then
    ⟨[MigEvent.slogError "migrate: environment variable not declared: PG_URL"], MigExit.osExit 2⟩
  else
    let databaseURL := (env.lookupEnv "PG_URL").getD ""
    let databaseURL := databaseURL ++ "?sslmode=disable"
    migrateFinish env (kitchenConnect env databaseURL defaultAttempts none [])

/-- Whether an event is a `migrate.New` call. -/
def MigEvent.isNew : MigEvent → Bool
  | MigEvent.migrateNew _ _ => true
  | _ => false

/-- The number of `migrate.New` calls in a run. -/
def attemptsMade (r : MigRun) : Nat :=
  r.trace.countP MigEvent.isNew

/-- Every call of `migrate.New` the routine can make in this environment
fails: the five calls with `attempts` from 5 down to 1. -/
def allAttemptsFail (env : MigrateEnv) (sourceURL : String) : Prop :=
  ∀ k, 1 ≤ k → k ≤ defaultAttempts →
    env.migrateNew k sourceURL ((env.lookupEnv "PG_URL").getD "" ++ "?sslmode=disable") ≠ none

/-- The call of `migrate.New` with `attempts = k` is the first to succeed. -/
def firstSuccessAt (env : MigrateEnv) (sourceURL : String) (k : Nat) : Prop :=
  1 ≤ k ∧ k ≤ defaultAttempts ∧
    env.migrateNew k sourceURL ((env.lookupEnv "PG_URL").getD "" ++ "?sslmode=disable") = none ∧
    ∀ j, k < j → j ≤ defaultAttempts →
      env.migrateNew j sourceURL ((env.lookupEnv "PG_URL").getD "" ++ "?sslmode=disable") ≠ none

/-- `Up` returns an error that is not `ErrNoChange`. -/
def upFails (env : MigrateEnv) : Prop :=
  env.up ≠ none ∧ errorsIs env.up "migrate.ErrNoChange" = false

/-- A migration environment: database reachable from the third attempt on,
nothing to migrate, no `IN_DOCKER`. -/
def sampleMigrateEnv : MigrateEnv :=
  ⟨fun k => if k = "PG_URL" then some "postgres://db/coffee" else none,
    "/home/u/go-coffeeshop/cmd/counter",
    fun k _ _ => if k ≤ 3 then none else some ⟨"dial tcp: connection refused", []⟩,
    some ⟨"no change", ["migrate.ErrNoChange"]⟩⟩

/-- The retry loop with the migration source as a parameter; both routines
are instances of it. -/
def connectLoop (sourceURL : String) (env : MigrateEnv) (databaseURL : String) :
    Nat → Option Error → List MigEvent → Option Error × List MigEvent
  | 0, err, t => (err, t)
  | attempts + 1, _, t =>
    let t := t ++ [MigEvent.slogInfo "migration source" sourceURL]
    let t := t ++ [MigEvent.migrateNew sourceURL databaseURL]
    match env.migrateNew (attempts + 1) sourceURL databaseURL with
    | none => (none, t)
    | some err =>
      let t := t ++ [MigEvent.slogInfo "Migrate: postgres is trying to connect"
        (toString (attempts + 1))]
      let t := t ++ [MigEvent.sleep]
      connectLoop sourceURL env databaseURL attempts (some err) t

/-- The sample migration environment with `IN_DOCKER` set to a value. -/
def sampleInDocker (value : String) : MigrateEnv :=
  { sampleMigrateEnv with
    lookupEnv := fun k => if k = "IN_DOCKER" then some value else sampleMigrateEnv.lookupEnv k }

/-! # Theorems -/

/-! ## Header lemmas -/

theorem lookup_filter_ne (l : List (String × List String)) (k k' : String) (hk : k' ≠ k) :
    (l.filter (fun kv => kv.1 != k)).lookup k' = l.lookup k' := by
  induction l with
  | nil => rfl
  | cons a l ih =>
    obtain ⟨a1, a2⟩ := a
    by_cases h1 : a1 = k
    · subst h1
      have h3 : (k' == a1) = false := by simpa using hk
      rw [List.filter_cons_of_neg (by simp), List.lookup_cons, h3, ih]
    · rw [List.filter_cons_of_pos (by simpa using h1), List.lookup_cons, List.lookup_cons, ih]

theorem Header.get_set_same (h : Header) (k v : String) : (h.Set k v).Get k = v := by
  simp [Header.Get, Header.Set, List.lookup]

theorem Header.get_set_other (h : Header) (k k' v : String) (hk : k' ≠ k) :
    (h.Set k v).Get k' = h.Get k' := by
  have h3 : (k' == k) = false := by simpa using hk
  simp only [Header.Get, Header.Set, List.lookup_cons, h3, lookup_filter_ne _ _ _ hk]

/-- Closed form of `allowCORS`: a preflight is answered by `preflightHandler`,
everything else goes to the wrapped handler. -/
theorem allowCORS_eq (h : Handler) (r : Request) (x : Exchange) :
    allowCORS h r x =
      if isPreflight r then
        preflightHandler r (x.setHeader "Access-Control-Allow-Origin" (r.Header.Get "Origin"))
      else h r (afterOrigin r x) := by
  unfold allowCORS afterOrigin isPreflight
  by_cases hO : r.Header.Get "Origin" = ""
  · simp [hO]
  · by_cases hP : r.Method = "OPTIONS" ∧ r.Header.Get "Access-Control-Request-Method" ≠ ""
    · simp [hO, hP]
    · have hP2 : ¬ (r.Method = "OPTIONS" ∧ ¬ r.Header.Get "Access-Control-Request-Method" = "") := hP
      simp only [ne_eq, hO, not_false_eq_true, hP2, if_true, if_false, true_and]

theorem preflightHandler_header_origin (r : Request) (x : Exchange) :
    (preflightHandler r x).header.Get "Access-Control-Allow-Origin" = "*" := by
  simp only [preflightHandler, Exchange.info, Exchange.setHeader]
  rw [Header.get_set_other _ _ _ _ (by decide), Header.get_set_other _ _ _ _ (by decide),
    Header.get_set_same]

theorem preflightHandler_header_headers (r : Request) (x : Exchange) :
    (preflightHandler r x).header.Get "Access-Control-Allow-Headers" = "*" := by
  simp only [preflightHandler, Exchange.info, Exchange.setHeader]
  rw [Header.get_set_other _ _ _ _ (by decide), Header.get_set_same]
  decide

theorem preflightHandler_header_methods (r : Request) (x : Exchange) :
    (preflightHandler r x).header.Get "Access-Control-Allow-Methods" =
      "GET,HEAD,POST,PUT,DELETE" := by
  simp only [preflightHandler, Exchange.info, Exchange.setHeader]
  rw [Header.get_set_same]
  decide

theorem preflightHandler_slog (r : Request) (x : Exchange) :
    (preflightHandler r x).slog = x.slog ++ [preflightRecord r] := by
  simp [preflightHandler, Exchange.info, Exchange.setHeader, preflightRecord]

theorem preflightHandler_backend (r : Request) (x : Exchange) :
    (preflightHandler r x).backend = x.backend := by
  simp [preflightHandler, Exchange.info, Exchange.setHeader]

/-! ## Claims about the CORS and logging middleware -/

/-- C1: for every request with a non-empty Origin, method OPTIONS and a
non-empty Access-Control-Request-Method, and every wrapped handler, the
response of `allowCORS` has Access-Control-Allow-Origin `*`,
Access-Control-Allow-Headers `*`, Access-Control-Allow-Methods
`GET,HEAD,POST,PUT,DELETE` (the joined allow-list, which contains POST), and
the wrapped handler is never invoked: the outcome is the same whatever the
handler is, and nothing is delivered to a backend. -/
theorem allowCORS_preflight (h : Handler) (r : Request) (x : Exchange)
    (hO : r.Header.Get "Origin" ≠ "") (hM : r.Method = "OPTIONS")
    (hA : r.Header.Get "Access-Control-Request-Method" ≠ "") :
    (allowCORS h r x).header.Get "Access-Control-Allow-Origin" = "*" ∧
    (allowCORS h r x).header.Get "Access-Control-Allow-Headers" = "*" ∧
    (allowCORS h r x).header.Get "Access-Control-Allow-Methods" = "GET,HEAD,POST,PUT,DELETE" ∧
    (allowCORS h r x).header.Get "Access-Control-Allow-Methods" = stringsJoin preflightMethods "," ∧
    "POST" ∈ preflightMethods ∧
    (∀ h2 : Handler, allowCORS h2 r x = allowCORS h r x) ∧
    (allowCORS h r x).backend = x.backend := by
  have hp : isPreflight r := ⟨hO, hM, hA⟩
  have e : ∀ h2 : Handler, allowCORS h2 r x =
      preflightHandler r (x.setHeader "Access-Control-Allow-Origin" (r.Header.Get "Origin")) := by
    intro h2
    rw [allowCORS_eq, if_pos hp]
  rw [e h]
  refine ⟨preflightHandler_header_origin _ _, preflightHandler_header_headers _ _,
    preflightHandler_header_methods _ _, ?_, by decide, fun h2 => e h2, ?_⟩
  · rw [preflightHandler_header_methods]
    decide
  · rw [preflightHandler_backend]
    rfl

/-- Witness for C1 at `Origin: http://x`, `Access-Control-Request-Method: POST`. -/
theorem allowCORS_preflight_witness :
    (allowCORS recorder samplePreflight Exchange.fresh).header.Get
        "Access-Control-Allow-Origin" = "*" ∧
    (allowCORS recorder samplePreflight Exchange.fresh).backend = [] :=
  have w := allowCORS_preflight recorder samplePreflight Exchange.fresh
    (by decide) (by decide) (by decide)
  ⟨w.1, w.2.2.2.2.2.2⟩

/-- C2, as stated, fails: the preflight `Origin: http://x`,
`Access-Control-Request-Method: POST` carries a non-empty Origin, the wrapped
handler `recorder` leaves every CORS header alone, and yet the response has
Access-Control-Allow-Origin `*`, not the request origin `http://x`. -/
theorem allowCORS_echo_counterexample :
    samplePreflight.Header.Get "Origin" = "http://x" ∧
    leavesCORS recorder ∧
    (allowCORS recorder samplePreflight Exchange.fresh).header.Get
        "Access-Control-Allow-Origin" = "*" ∧
    (allowCORS recorder samplePreflight Exchange.fresh).header.Get
        "Access-Control-Allow-Origin" ≠ samplePreflight.Header.Get "Origin" :=
  ⟨by decide, fun _ _ _ _ => rfl, by decide, by decide⟩

/-- C2 (amended): for any request carrying a non-empty Origin header that is
not a preflight (its method is not OPTIONS or its
Access-Control-Request-Method is empty), and for every wrapped handler that
does not itself touch CORS headers, the response of `allowCORS` has
Access-Control-Allow-Origin equal to the request origin. -/
theorem allowCORS_echo (h : Handler) (r : Request) (x : Exchange)
    (hO : r.Header.Get "Origin" ≠ "")
    (hN : ¬ (r.Method = "OPTIONS" ∧ r.Header.Get "Access-Control-Request-Method" ≠ ""))
    (hh : leavesCORS h) :
    (allowCORS h r x).header.Get "Access-Control-Allow-Origin" = r.Header.Get "Origin" := by
  have hp : ¬ isPreflight r := fun hp => hN ⟨hp.2.1, hp.2.2⟩
  rw [allowCORS_eq, if_neg hp, hh _ _ _ (by decide), afterOrigin, if_neg hO]
  exact Header.get_set_same _ _ _

/-- Witness for the amended C2 at a cross-origin `GET`. -/
theorem allowCORS_echo_witness :
    (allowCORS recorder sampleGet Exchange.fresh).header.Get
        "Access-Control-Allow-Origin" = "http://x" :=
  allowCORS_echo recorder sampleGet Exchange.fresh (by decide) (by decide)
    (fun _ _ _ _ => rfl)

/-- C9: for every request and every wrapped handler `h`, `allowCORS h` hands
the unchanged request to `h` exactly once when the request is not a preflight
and never when it is one: the outcome is `h` applied once to the request (in
the state `allowCORS` has prepared) in the first case and does not involve `h`
in the second; with the recording backend the list of delivered requests grows
by exactly this request, or not at all. When the request has no Origin,
`allowCORS` sets no header itself (the state reaches `h` untouched), so an
OPTIONS request with Access-Control-Request-Method but no Origin is forwarded. -/
theorem allowCORS_forwards_iff_not_preflight (h : Handler) (r : Request) (x : Exchange) :
    allowCORS h r x =
      (if isPreflight r then
        preflightHandler r (x.setHeader "Access-Control-Allow-Origin" (r.Header.Get "Origin"))
      else h r (afterOrigin r x)) ∧
    (allowCORS recorder r x).backend = x.backend ++ (if isPreflight r then [] else [r]) ∧
    (if r.Header.Get "Origin" = "" then
      ¬ isPreflight r ∧ afterOrigin r x = x ∧ allowCORS h r x = h r x
    else (afterOrigin r x).backend = x.backend ∧ (afterOrigin r x).slog = x.slog) ∧
    ¬ isPreflight sampleNoOrigin ∧
    allowCORS h sampleNoOrigin x = h sampleNoOrigin x := by
  refine ⟨allowCORS_eq h r x, ?_, ?_, by decide, ?_⟩
  · rw [allowCORS_eq]
    by_cases hp : isPreflight r
    · rw [if_pos hp, if_pos hp, preflightHandler_backend]
      simp [Exchange.setHeader]
    · rw [if_neg hp, if_neg hp]
      unfold recorder afterOrigin
      split_ifs <;> rfl
  · by_cases hO : r.Header.Get "Origin" = ""
    · rw [if_pos hO]
      have hp : ¬ isPreflight r := fun hp => hp.1 hO
      have ha : afterOrigin r x = x := by rw [afterOrigin, if_pos hO]
      refine ⟨hp, ha, ?_⟩
      rw [allowCORS_eq, if_neg hp, ha]
    · rw [if_neg hO, afterOrigin, if_neg hO]
      exact ⟨rfl, rfl⟩
  · have hp : ¬ isPreflight sampleNoOrigin := by decide
    have hO : sampleNoOrigin.Header.Get "Origin" = "" := by decide
    rw [allowCORS_eq, if_neg hp, afterOrigin, if_pos hO]

/-- C3, as stated, fails: the preflight `Origin: http://x`,
`Access-Control-Request-Method: POST` is answered by the installed chain
`allowCORS(withLogger(mux))` (the CORS response headers are set) while the only
log record written is the `preflight request` one, which carries the path but
no method: `withLogger` is never reached. -/
theorem gatewayChain_logging_counterexample :
    (gatewayChain recorder samplePreflight Exchange.fresh).header.Get
        "Access-Control-Allow-Origin" = "*" ∧
    (gatewayChain recorder samplePreflight Exchange.fresh).slog =
        [⟨Level.info, "preflight request", [("http_path", Value.str "/v1/api/item-types")]⟩] ∧
    (gatewayChain recorder samplePreflight Exchange.fresh).slog.any Record.hasMethod = false ∧
    runRequestRecord samplePreflight ∉
        (gatewayChain recorder samplePreflight Exchange.fresh).slog := by
  decide

/-- C3 (amended): for every request that is not a CORS preflight, the chain
`allowCORS(withLogger(mux))` records a `Run request` entry carrying the
request method and URL (hence its path) and only then invokes `mux`, once, on
a state whose last log record is that entry; a preflight is answered by
`allowCORS` alone, with the single `preflight request` record carrying the
path and without reaching `withLogger` or `mux`. -/
theorem gatewayChain_logs_before_mux (mux : Handler) (r : Request) (x : Exchange) :
    gatewayChain mux r x =
      (if isPreflight r then
        preflightHandler r (x.setHeader "Access-Control-Allow-Origin" (r.Header.Get "Origin"))
      else mux r { afterOrigin r x with slog := x.slog ++ [runRequestRecord r] }) ∧
    (gatewayChain recorder r x).slog =
      x.slog ++ [if isPreflight r then preflightRecord r else runRequestRecord r] ∧
    (runRequestRecord r).hasMethod = true ∧
    (runRequestRecord r).attrs.lookup "http_method" = some (Value.str r.Method) ∧
    (runRequestRecord r).attrs.lookup "http_url" = some (Value.url r.URL) := by
  have ha : (afterOrigin r x).slog = x.slog := by
    unfold afterOrigin
    split_ifs <;> rfl
  have e : gatewayChain mux r x =
      (if isPreflight r then
        preflightHandler r (x.setHeader "Access-Control-Allow-Origin" (r.Header.Get "Origin"))
      else mux r { afterOrigin r x with slog := x.slog ++ [runRequestRecord r] }) := by
    rw [gatewayChain, allowCORS_eq]
    by_cases hp : isPreflight r
    · rw [if_pos hp, if_pos hp]
    · rw [if_neg hp, if_neg hp]
      simp only [withLogger, Exchange.info, runRequestRecord, ha]
  refine ⟨e, ?_, by simp [runRequestRecord, Record.hasMethod], by simp [runRequestRecord, List.lookup],
    by simp [runRequestRecord, List.lookup]⟩
  rw [gatewayChain, allowCORS_eq]
  by_cases hp : isPreflight r
  · rw [if_pos hp, if_pos hp, preflightHandler_slog]
    rfl
  · rw [if_neg hp, if_neg hp]
    simp only [withLogger, Exchange.info, runRequestRecord, recorder, ha]

/-! ## Gateway construction -/

/-- C4: for every pair of outcomes of the product and counter registrations,
`newGateway` returns a non-nil error together with a nil handler if and only
if at least one registration fails; the error is that of the first failing
registration, the counter registration is not attempted after a product
failure, and when both succeed the mux (with both services) is returned with
a nil error. -/
theorem newGateway_fail_fast (reg : Registrations) (cfg : ProxyConfig) :
    (((newGateway reg cfg).1.2 ≠ none ∧ (newGateway reg cfg).1.1 = none) ↔
      (reg.product (hostPort cfg.ProductHost cfg.ProductPort) ≠ none ∨
        reg.counter (hostPort cfg.CounterHost cfg.CounterPort) ≠ none)) ∧
    (newGateway reg cfg).1.2 =
      (match reg.product (hostPort cfg.ProductHost cfg.ProductPort) with
        | some e => some e
        | none => reg.counter (hostPort cfg.CounterHost cfg.CounterPort)) ∧
    (newGateway reg cfg).2 =
      (match reg.product (hostPort cfg.ProductHost cfg.ProductPort) with
        | some _ => [Event.register Service.product (hostPort cfg.ProductHost cfg.ProductPort)]
        | none => [Event.register Service.product (hostPort cfg.ProductHost cfg.ProductPort),
            Event.register Service.counter (hostPort cfg.CounterHost cfg.CounterPort)]) ∧
    (newGateway reg cfg).1.1 =
      (if reg.product (hostPort cfg.ProductHost cfg.ProductPort) = none ∧
          reg.counter (hostPort cfg.CounterHost cfg.CounterPort) = none
        then some (HttpHandler.gateway [Service.product, Service.counter]) else none) ∧
    ((newGateway reg cfg).1.1 = none ↔ (newGateway reg cfg).1.2 ≠ none) := by
  unfold newGateway
  cases hp : reg.product (hostPort cfg.ProductHost cfg.ProductPort) with
  | some e => simp [hp]
  | none =>
    cases hc : reg.counter (hostPort cfg.CounterHost cfg.CounterPort) with
    | some e => simp [hp, hc]
    | none => simp [hp, hc]

/-! ## Telemetry setup and shutdown -/

theorem setupShutdown_eq (mp tp : Provider) (c : Context) (t : List Event) :
    Setup.shutdown mp tp c t =
      (tp.Shutdown c (t ++ [Event.meterShutdown c]),
        t ++ [Event.meterShutdown c, Event.tracerShutdown c]) := by
  simp [Setup.shutdown, meterShutdown, tracerShutdown]

/-- The shape of every result of `Setup`: the trace grows by telemetry events
only, and either all three results signal failure (nil, nil, error) or all
three signal success. -/
theorem Setup_shape (env : OtelEnv) (ctx : Context) (n v : String) (t : List Event) :
    ∃ extra, (Setup env ctx n v t).2 = t ++ extra ∧
      (∀ ev ∈ extra, ev.isTelemetry = true) ∧
      (((Setup env ctx n v t).1.shutdown = none ∧ (Setup env ctx n v t).1.handler = none ∧
          (Setup env ctx n v t).1.err ≠ none) ∨
        ((Setup env ctx n v t).1.shutdown = some (Setup.shutdown env.mp env.tp) ∧
          (Setup env ctx n v t).1.handler = some HttpHandler.promhttp ∧
          (Setup env ctx n v t).1.err = none)) := by
  unfold Setup
  cases h1 : env.resourceNew n v with
  | some e => exact ⟨[], by simp, by simp, Or.inl ⟨rfl, rfl, by simp⟩⟩
  | none =>
    simp only []
    split
    · exact ⟨[Event.setTextMapPropagator], by simp, by simp [Event.isTelemetry],
        Or.inl ⟨rfl, rfl, by simp⟩⟩
    · cases h3 : env.promNew with
      | some e =>
        exact ⟨[Event.setTextMapPropagator, Event.setTracerProvider, Event.tracerShutdown ctx],
          by simp [tracerShutdown], by simp [Event.isTelemetry], Or.inl ⟨rfl, rfl, by simp⟩⟩
      | none =>
        exact ⟨[Event.setTextMapPropagator, Event.setTracerProvider, Event.setMeterProvider,
          Event.runtimeStart], by simp, by simp [Event.isTelemetry], Or.inr ⟨rfl, rfl, rfl⟩⟩

/-- The error `Setup` returns depends neither on the context nor on the trace. -/
theorem Setup_err_indep (env : OtelEnv) (c1 c2 : Context) (n v : String) (t1 t2 : List Event) :
    (Setup env c1 n v t1).1.err = (Setup env c2 n v t2).1.err := by
  unfold Setup
  cases h1 : env.resourceNew n v with
  | some e => rfl
  | none =>
    simp only []
    split
    · rfl
    · cases h3 : env.promNew with
      | some e => rfl
      | none => rfl

/-- C6: the shutdown function returned by a successful `Setup` shuts the
meter provider down first and the tracer provider second, each exactly once
and with the context it was called with, and returns exactly the tracer
provider's result; whatever the meter provider is or returns, the returned
value and the tracer shutdown are the same. -/
theorem setup_shutdown_order (env : OtelEnv) (ctx : Context) (n v : String) (t : List Event)
    (hs : (Setup env ctx n v t).1.err = none) :
    ∃ f, (Setup env ctx n v t).1.shutdown = some f ∧
      ∀ (c : Context) (t2 : List Event),
        (f c t2).2 = t2 ++ [Event.meterShutdown c, Event.tracerShutdown c] ∧
        (f c t2).1 = env.tp.Shutdown c (t2 ++ [Event.meterShutdown c]) ∧
        (∀ mp2 : Provider, Setup.shutdown mp2 env.tp c t2 = f c t2) := by
  obtain ⟨extra, -, -, h | h⟩ := Setup_shape env ctx n v t
  · exact absurd hs h.2.2
  · refine ⟨Setup.shutdown env.mp env.tp, h.1, fun c t2 => ?_⟩
    simp [setupShutdown_eq]

/-- Witness for C6: `Setup` succeeds in `otelAllGood`. -/
theorem setup_shutdown_order_witness :
    ∃ f, (Setup otelAllGood Context.background "web" "dev" []).1.shutdown = some f ∧
      ∀ (c : Context) (t2 : List Event),
        (f c t2).2 = t2 ++ [Event.meterShutdown c, Event.tracerShutdown c] ∧
        (f c t2).1 = otelAllGood.tp.Shutdown c (t2 ++ [Event.meterShutdown c]) ∧
        (∀ mp2 : Provider, Setup.shutdown mp2 otelAllGood.tp c t2 = f c t2) :=
  setup_shutdown_order otelAllGood Context.background "web" "dev" [] rfl

/-! ## Entry points -/

theorem newGateway_handler_none (reg : Registrations) (cfg : ProxyConfig) (e : Error)
    (hg : (newGateway reg cfg).1.2 = some e) :
    (newGateway reg cfg).1.1 = none ∧
      ∀ ev ∈ (newGateway reg cfg).2, ev.isServing = false := by
  unfold newGateway at hg ⊢
  cases hp : reg.product (hostPort cfg.ProductHost cfg.ProductPort) with
  | some e1 => simp [hp, Event.isServing]
  | none =>
    cases hc : reg.counter (hostPort cfg.CounterHost cfg.CounterPort) with
    | some e1 => simp [hp, hc, Event.isServing]
    | none => simp [hp, hc] at hg

theorem isServing_of_isTelemetry (ev : Event) (h : ev.isTelemetry = true) :
    ev.isServing = false := by
  cases ev <;> simp_all [Event.isTelemetry, Event.isServing]

/-- Unwinding after a panic ends in a panic. -/
theorem unwind_panic (ds : List Deferred) (p : String) (t : List Event) :
    ∃ msg, (unwind ds (Exit.panic p) t).exit = Exit.panic msg := by
  induction ds generalizing p t with
  | nil => exact ⟨p, rfl⟩
  | cons d ds ih =>
    simp only [unwind]
    split
    · exact ih _ _
    · exact ih _ _

/-- Unwinding keeps what was already in the trace and adds only `cancel` and
provider shutdown events when the shutdown function is nil or the closure
built by `Setup`. -/
theorem unwind_trace_mono (mp tp : Provider) (ds : List Deferred)
    (hd : ∀ d ∈ ds, d = Deferred.cancel ∨ d = Deferred.shutdown none ∨
      d = Deferred.shutdown (some (Setup.shutdown mp tp)))
    (x : Exit) (t : List Event) :
    ∃ rest, (unwind ds x t).trace = t ++ rest ∧
      ∀ ev ∈ rest, ev = Event.cancel ∨ ev.isTelemetry = true := by
  induction ds generalizing x t with
  | nil => exact ⟨[], by simp [unwind], by simp⟩
  | cons d ds ih =>
    have hds : ∀ d2 ∈ ds, d2 = Deferred.cancel ∨ d2 = Deferred.shutdown none ∨
        d2 = Deferred.shutdown (some (Setup.shutdown mp tp)) :=
      fun d2 h2 => hd d2 (List.mem_cons_of_mem _ h2)
    rcases hd d (List.mem_cons_self _ _) with h | h | h
    · subst h
      simp only [unwind, Deferred.run]
      obtain ⟨rest, h1, h2⟩ := ih hds x (t ++ [Event.cancel])
      refine ⟨Event.cancel :: rest, by simp [h1], ?_⟩
      intro ev hev
      rcases List.mem_cons.1 hev with h3 | h3
      · exact Or.inl h3
      · exact h2 ev h3
    · subst h
      simp only [unwind, Deferred.run]
      exact ih hds _ t
    · subst h
      simp only [unwind, Deferred.run, setupShutdown_eq]
      obtain ⟨rest, h1, h2⟩ := ih hds x
        (t ++ [Event.meterShutdown Context.background, Event.tracerShutdown Context.background])
      refine ⟨Event.meterShutdown Context.background ::
        Event.tracerShutdown Context.background :: rest, by simp [h1], ?_⟩
      intro ev hev
      simp only [List.mem_cons] at hev
      rcases hev with h3 | h3 | h3
      · subst h3; exact Or.inr rfl
      · subst h3; exact Or.inr rfl
      · exact h2 ev h3

/-- Unwinding ends the way it was entered, or in a panic. -/
theorem unwind_exit (ds : List Deferred) (x : Exit) (t : List Event) :
    (unwind ds x t).exit = x ∨ ∃ msg, (unwind ds x t).exit = Exit.panic msg := by
  induction ds generalizing x t with
  | nil => exact Or.inl rfl
  | cons d ds ih =>
    simp only [unwind]
    split
    · exact Or.inr (unwind_panic _ _ _)
    · exact ih _ _

theorem not_serving_of_unwound (ev : Event) (h : ev = Event.cancel ∨ ev.isTelemetry = true) :
    ev.isServing = false ∧ ∀ m, ev ≠ Event.glogFatal m := by
  rcases h with h | h
  · subst h
    exact ⟨rfl, fun m hm => by cases hm⟩
  · refine ⟨isServing_of_isTelemetry ev h, fun m hm => ?_⟩
    subst hm
    simp [Event.isTelemetry] at h

/-- When `newGateway` fails, the proxy `main` logs the error, panics in
`mux.Handle("/", gw)` on the nil handler and unwinds. -/
theorem proxyMain_gateway_error_eq (env : ProxyEnv) (cfg : ProxyConfig) (e : Error)
    (hc : env.newConfig = (some cfg, none))
    (hg : (newGateway env.reg cfg).1.2 = some e) :
    Proxy.main env =
      unwind [Deferred.shutdown
          (Setup env.otel (Context.withCancel Context.background) cfg.Name cfg.Version []).1.shutdown,
          Deferred.cancel]
        (Exit.panic "http: nil handler")
        (proxyAfterSetup env cfg ++ (newGateway env.reg cfg).2 ++
          [Event.slogError "failed to create a new gateway" e]) := by
  have hn := (newGateway_handler_none env.reg cfg e hg).1
  unfold Proxy.main proxyAfterSetup
  simp only [hc, hg, hn, ServeMux.Handle]
  simp

theorem proxyAfterSetup_not_serving (env : ProxyEnv) (cfg : ProxyConfig) :
    ∀ ev ∈ proxyAfterSetup env cfg, ev.isServing = false := by
  obtain ⟨extra, h1, h2, -⟩ :=
    Setup_shape env.otel (Context.withCancel Context.background) cfg.Name cfg.Version []
  have h3 : ∀ ev ∈ (Setup env.otel (Context.withCancel Context.background)
      cfg.Name cfg.Version []).2, ev.isServing = false := by
    intro ev hev
    rw [h1, List.nil_append] at hev
    exact isServing_of_isTelemetry ev (h2 ev hev)
  intro ev hev
  unfold proxyAfterSetup at hev
  split at hev
  · rcases List.mem_append.1 hev with h | h
    · exact h3 ev h
    · simp only [List.mem_singleton] at h
      subst h
      rfl
  · exact h3 ev hev

theorem setup_deferred_shape (env : OtelEnv) (ctx : Context) (n v : String) (t : List Event)
    (ds : List Deferred) (hds : ∀ d ∈ ds, d = Deferred.cancel) :
    ∀ d ∈ Deferred.shutdown (Setup env ctx n v t).1.shutdown :: ds,
      d = Deferred.cancel ∨ d = Deferred.shutdown none ∨
        d = Deferred.shutdown (some (Setup.shutdown env.mp env.tp)) := by
  intro d hd
  rcases List.mem_cons.1 hd with h | h
  · obtain ⟨-, -, -, h2 | h2⟩ := Setup_shape env ctx n v t
    · exact Or.inr (Or.inl (by rw [h, h2.1]))
    · exact Or.inr (Or.inr (by rw [h, h2.1]))
  · exact Or.inl (hds d h)

/-- C5: in the proxy `main`, whenever `newGateway` returns an error, startup
is aborted: no handler is mounted on the mux, `ListenAndServe` is never
reached, and the run ends in a panic (raised by `mux.Handle("/", gw)` on the
nil handler) right after the error has been logged. -/
theorem proxyMain_gateway_error_aborts (env : ProxyEnv) (cfg : ProxyConfig) (e : Error)
    (hc : env.newConfig = (some cfg, none))
    (hg : (newGateway env.reg cfg).1.2 = some e) :
    (∀ p, Event.muxHandle p ∉ (Proxy.main env).trace) ∧
    (∀ a, Event.listenAndServe a ∉ (Proxy.main env).trace) ∧
    Event.slogError "failed to create a new gateway" e ∈ (Proxy.main env).trace ∧
    (∃ msg, (Proxy.main env).exit = Exit.panic msg) := by
  rw [proxyMain_gateway_error_eq env cfg e hc hg]
  obtain ⟨rest, h1, h2⟩ := unwind_trace_mono env.otel.mp env.otel.tp _
    (setup_deferred_shape env.otel (Context.withCancel Context.background) cfg.Name cfg.Version []
      [Deferred.cancel] (by simp))
    (Exit.panic "http: nil handler")
    (proxyAfterSetup env cfg ++ (newGateway env.reg cfg).2 ++
      [Event.slogError "failed to create a new gateway" e])
  have hall : ∀ ev ∈ (unwind [Deferred.shutdown
      (Setup env.otel (Context.withCancel Context.background) cfg.Name cfg.Version []).1.shutdown,
      Deferred.cancel] (Exit.panic "http: nil handler")
      (proxyAfterSetup env cfg ++ (newGateway env.reg cfg).2 ++
        [Event.slogError "failed to create a new gateway" e])).trace, ev.isServing = false := by
    intro ev hev
    rw [h1] at hev
    simp only [List.mem_append, List.mem_singleton] at hev
    rcases hev with ((h | h) | h) | h
    · exact proxyAfterSetup_not_serving env cfg ev h
    · exact (newGateway_handler_none env.reg cfg e hg).2 ev h
    · subst h; rfl
    · exact (not_serving_of_unwound ev (h2 ev h)).1
  refine ⟨fun p hp => ?_, fun a ha => ?_, ?_, unwind_panic _ _ _⟩
  · have := hall _ hp
    simp [Event.isServing] at this
  · have := hall _ ha
    simp [Event.isServing] at this
  · rw [h1]
    simp

/-- Witness for C5: the product backend cannot be registered. -/
theorem proxyMain_gateway_error_aborts_witness :
    (∀ p, Event.muxHandle p ∉ (Proxy.main proxyNoProduct).trace) ∧
    (∀ a, Event.listenAndServe a ∉ (Proxy.main proxyNoProduct).trace) ∧
    Event.slogError "failed to create a new gateway" ⟨"dial product: connection refused", []⟩ ∈
      (Proxy.main proxyNoProduct).trace ∧
    (∃ msg, (Proxy.main proxyNoProduct).exit = Exit.panic msg) :=
  proxyMain_gateway_error_aborts proxyNoProduct sampleProxyConfig
    ⟨"dial product: connection refused", []⟩ rfl rfl

/-- On every error path `Setup` returns a nil shutdown function and a nil
metrics handler. -/
theorem Setup_error_nil (env : OtelEnv) (ctx : Context) (n v : String) (t : List Event)
    (e : Error) (h : (Setup env ctx n v t).1.err = some e) :
    (Setup env ctx n v t).1.shutdown = none ∧ (Setup env ctx n v t).1.handler = none := by
  obtain ⟨-, -, -, h2 | h2⟩ := Setup_shape env ctx n v t
  · exact ⟨h2.1, h2.2.1⟩
  · rw [h2.2.2] at h
    cases h

theorem Setup_trace_telemetry (env : OtelEnv) (ctx : Context) (n v : String) :
    ∀ ev ∈ (Setup env ctx n v []).2, ev.isTelemetry = true := by
  obtain ⟨extra, h1, h2, -⟩ := Setup_shape env ctx n v []
  intro ev hev
  rw [h1, List.nil_append] at hev
  exact h2 ev hev

/-- When `Setup` fails, the web `main` ends in `glog.Fatalf`. -/
theorem webMain_setup_error_eq (we : WebEnv) (ew : Error)
    (hw1 : unsetOrEmpty (we.lookupEnv "REVERSE_PROXY_URL") = false)
    (hw2 : unsetOrEmpty (we.lookupEnv "WEB_PORT") = false)
    (hw : (Setup we.otel Context.background (webServiceName we) (webServiceVersion we) []).1.err
      = some ew) :
    Web.main we =
      ⟨(Setup we.otel Context.background (webServiceName we) (webServiceVersion we) []).2 ++
        [Event.glogFatal "OpenTelemetry init error"], Exit.fatal⟩ := by
  unfold Web.main
  unfold webServiceName webServiceVersion at hw ⊢
  simp only [hw1, hw2, Bool.false_eq_true, if_false, List.nil_append]
  simp only [hw]

theorem ServeMux.Handle_nil (mux : ServeMux) (pattern : String) (hp : pattern ≠ "") :
    mux.Handle pattern none = Except.error "http: nil handler" := by
  simp [ServeMux.Handle, hp]

theorem ServeMux.Handle_first (pattern : String) (h : HttpHandler) (hp : pattern ≠ "") :
    (⟨[]⟩ : ServeMux).Handle pattern (some h) = Except.ok ⟨[(pattern, h)]⟩ := by
  simp [ServeMux.Handle, hp]

/-- When `Setup` fails, the proxy `main` logs the error, goes on to
`newGateway` and ends in a panic. -/
theorem proxyMain_setup_error_shape (pe : ProxyEnv) (pcfg : ProxyConfig) (ep : Error)
    (hp1 : pe.newConfig = (some pcfg, none))
    (hp : (Setup pe.otel (Context.withCancel Context.background) pcfg.Name pcfg.Version []).1.err
      = some ep) :
    ∃ rest,
      (Proxy.main pe).trace =
        (Setup pe.otel (Context.withCancel Context.background) pcfg.Name pcfg.Version []).2 ++
          [Event.slogError "failed to init OpenTelemetry" ep] ++ (newGateway pe.reg pcfg).2 ++ rest ∧
      (∀ ev ∈ rest, ∀ m, ev ≠ Event.glogFatal m) ∧
      ∃ msg, (Proxy.main pe).exit = Exit.panic msg := by
  obtain ⟨hs, hh⟩ := Setup_error_nil _ _ _ _ _ _ hp
  unfold Proxy.main
  simp only [hp1, hp, hs, hh, List.nil_append]
  cases hg1 : (newGateway pe.reg pcfg).1.1 with
  | none =>
    rw [ServeMux.Handle_nil _ _ (by decide)]
    simp only [unwind, Deferred.run]
    cases hg2 : (newGateway pe.reg pcfg).1.2 with
    | none => exact ⟨[Event.cancel], by simp, by simp, ⟨_, rfl⟩⟩
    | some eg =>
      exact ⟨[Event.slogError "failed to create a new gateway" eg, Event.cancel], by simp,
        by simp, ⟨_, rfl⟩⟩
  | some gw =>
    rw [ServeMux.Handle_first _ _ (by decide)]
    simp only []
    rw [ServeMux.Handle_nil _ _ (by decide)]
    simp only [unwind, Deferred.run]
    cases hg2 : (newGateway pe.reg pcfg).1.2 with
    | none => exact ⟨[Event.muxHandle "/", Event.cancel], by simp, by simp, ⟨_, rfl⟩⟩
    | some eg =>
      exact ⟨[Event.slogError "failed to create a new gateway" eg, Event.muxHandle "/",
        Event.cancel], by simp, by simp, ⟨_, rfl⟩⟩

/-- When `Setup` fails, the barista `main` logs the error and does not end in
a fatal log call. -/
theorem baristaMain_setup_error_shape (be : BaristaEnv) (bcfg : BaristaConfig) (eb : Error)
    (hb1 : be.newConfig.1 = some bcfg)
    (hb : (Setup be.otel (Context.withCancel Context.background) bcfg.Name bcfg.Version []).1.err
      = some eb) :
    (∃ pre, (Barista.main be).trace =
      pre ++ [Event.slogError "failed to init OpenTelemetry" eb] ∧
      ∀ ev ∈ pre, ∀ m, ev ≠ Event.glogFatal m) ∧
    ∃ msg, (Barista.main be).exit = Exit.panic msg := by
  unfold Barista.main
  simp only [hb1]
  generalize ht0 : ((match be.newConfig.2 with
      | some err =>
        (match be.maxprocsSet with
          | some err => [Event.slogError "failed set max procs" err]
          | none => []) ++ [Event.slogError "failed get config" err]
      | none =>
        match be.maxprocsSet with
          | some err => [Event.slogError "failed set max procs" err]
          | none => []) ++ [Event.slogInfo "init app"]) = t0
  have ht0f : ∀ ev ∈ t0, ∀ m, ev ≠ Event.glogFatal m := by
    subst ht0
    intro ev hev m
    cases h1 : be.newConfig.2 <;> cases h2 : be.maxprocsSet <;> simp [h1, h2] at hev <;>
      (rcases hev with h | h | h) <;> (try subst h) <;> simp_all
  have he : (Setup be.otel (Context.withCancel Context.background) bcfg.Name bcfg.Version t0).1.err
      = some eb := by
    rw [Setup_err_indep be.otel _ (Context.withCancel Context.background) _ _ t0 []]
    exact hb
  obtain ⟨hs, hh⟩ := Setup_error_nil _ _ _ _ _ _ he
  obtain ⟨extra, hx1, hx2, -⟩ :=
    Setup_shape be.otel (Context.withCancel Context.background) bcfg.Name bcfg.Version t0
  simp only [he, hs, hh]
  rw [ServeMux.Handle_nil _ _ (by decide)]
  simp only [unwind, Deferred.run]
  refine ⟨⟨_, rfl, ?_⟩, ⟨_, rfl⟩⟩
  intro ev hev m
  rw [hx1] at hev
  rcases List.mem_append.1 hev with h | h
  · exact ht0f ev h m
  · intro hm
    subst hm
    have := hx2 _ h
    simp [Event.isTelemetry] at this

/-- C7, as stated, fails: in the web entry point with both required
variables set, a `Setup` error (here from `resource.New`) is fatal. The run
consists of the `glog.Fatalf` call alone and the HTTP listener is never
started. -/
theorem setup_error_web_counterexample :
    (Setup webNoResource.otel Context.background "web" "dev" []).1.err =
      some ⟨"resource: detection failed", []⟩ ∧
    Web.main webNoResource = ⟨[Event.glogFatal "OpenTelemetry init error"], Exit.fatal⟩ ∧
    (Web.main webNoResource).trace.any Event.isServing = false := by
  decide

/-- C7 (amended): `Setup` returns a nil shutdown function and a nil metrics
handler on every error path. In the proxy and barista entry points a `Setup`
error is logged with `slog.Error` and is not answered by a fatal log call:
no `glog.Fatalf` occurs, the run does not end as a fatal exit, and the proxy
goes on to `newGateway`. In the web entry point a `Setup` error is fatal:
`glog.Fatalf` ends the process and the HTTP listener is never started. -/
theorem setup_error_handling
    (oe : OtelEnv) (ctx : Context) (n v : String) (t : List Event) (e0 : Error)
    (we : WebEnv) (ew : Error) (pe : ProxyEnv) (pcfg : ProxyConfig) (ep : Error)
    (be : BaristaEnv) (bcfg : BaristaConfig) (eb : Error)
    (h0 : (Setup oe ctx n v t).1.err = some e0)
    (hw1 : unsetOrEmpty (we.lookupEnv "REVERSE_PROXY_URL") = false)
    (hw2 : unsetOrEmpty (we.lookupEnv "WEB_PORT") = false)
    (hw : (Setup we.otel Context.background (webServiceName we) (webServiceVersion we) []).1.err
      = some ew)
    (hp1 : pe.newConfig = (some pcfg, none))
    (hp : (Setup pe.otel (Context.withCancel Context.background) pcfg.Name pcfg.Version []).1.err
      = some ep)
    (hb1 : be.newConfig.1 = some bcfg)
    (hb : (Setup be.otel (Context.withCancel Context.background) bcfg.Name bcfg.Version []).1.err
      = some eb) :
    ((Setup oe ctx n v t).1.shutdown = none ∧ (Setup oe ctx n v t).1.handler = none) ∧
    ((Web.main we).exit = Exit.fatal ∧
      (Web.main we).trace.getLast? = some (Event.glogFatal "OpenTelemetry init error") ∧
      ∀ a, Event.echoStart a ∉ (Web.main we).trace) ∧
    (Event.slogError "failed to init OpenTelemetry" ep ∈ (Proxy.main pe).trace ∧
      Event.register Service.product (hostPort pcfg.ProductHost pcfg.ProductPort) ∈
        (Proxy.main pe).trace ∧
      (∀ m, Event.glogFatal m ∉ (Proxy.main pe).trace) ∧
      (Proxy.main pe).exit ≠ Exit.fatal) ∧
    (Event.slogError "failed to init OpenTelemetry" eb ∈ (Barista.main be).trace ∧
      (∀ m, Event.glogFatal m ∉ (Barista.main be).trace) ∧
      (Barista.main be).exit ≠ Exit.fatal) := by
  refine ⟨Setup_error_nil _ _ _ _ _ _ h0, ?_, ?_, ?_⟩
  · rw [webMain_setup_error_eq we ew hw1 hw2 hw]
    refine ⟨rfl, by simp, fun a ha => ?_⟩
    simp only [List.mem_append, List.mem_singleton] at ha
    rcases ha with h | h
    · have := Setup_trace_telemetry _ _ _ _ _ h
      simp [Event.isTelemetry] at this
    · cases h
  · obtain ⟨rest, h1, h2, msg, h3⟩ := proxyMain_setup_error_shape pe pcfg ep hp1 hp
    refine ⟨by rw [h1]; simp, ?_, fun m hm => ?_, by rw [h3]; simp⟩
    · rw [h1]
      have : Event.register Service.product (hostPort pcfg.ProductHost pcfg.ProductPort) ∈
          (newGateway pe.reg pcfg).2 := by
        unfold newGateway
        cases reg1 : pe.reg.product (hostPort pcfg.ProductHost pcfg.ProductPort) with
        | some e1 => simp [reg1]
        | none =>
          cases reg2 : pe.reg.counter (hostPort pcfg.CounterHost pcfg.CounterPort) with
          | some e2 => simp [reg1, reg2]
          | none => simp [reg1, reg2]
      simp [this]
    · rw [h1] at hm
      simp only [List.mem_append, List.mem_singleton] at hm
      rcases hm with ((h | h) | h) | h
      · have := Setup_trace_telemetry _ _ _ _ _ h
        simp [Event.isTelemetry] at this
      · cases h
      · have h5 : ∀ ev ∈ (newGateway pe.reg pcfg).2, ∀ m2, ev ≠ Event.glogFatal m2 := by
          intro ev hev m2
          unfold newGateway at hev
          cases reg1 : pe.reg.product (hostPort pcfg.ProductHost pcfg.ProductPort) with
          | some e1 =>
            simp [reg1] at hev
            subst hev
            simp
          | none =>
            cases reg2 : pe.reg.counter (hostPort pcfg.CounterHost pcfg.CounterPort) with
            | some e2 =>
              simp [reg1, reg2] at hev
              rcases hev with h | h <;> subst h <;> simp
            | none =>
              simp [reg1, reg2] at hev
              rcases hev with h | h <;> subst h <;> simp
        exact h5 _ h m rfl
      · exact h2 _ h m rfl
  · obtain ⟨⟨pre, h1, h2⟩, msg, h3⟩ := baristaMain_setup_error_shape be bcfg eb hb1 hb
    refine ⟨by rw [h1]; simp, fun m hm => ?_, by rw [h3]; simp⟩
    rw [h1] at hm
    rcases List.mem_append.1 hm with h | h
    · exact h2 _ h m rfl
    · simp at h

/-- Witness for the amended C7: `resource.New` fails in all three services. -/
theorem setup_error_handling_witness :
    (Web.main webNoResource).exit = Exit.fatal ∧
    Event.slogError "failed to init OpenTelemetry" ⟨"resource: detection failed", []⟩ ∈
      (Proxy.main proxyNoResource).trace ∧
    Event.slogError "failed to init OpenTelemetry" ⟨"resource: detection failed", []⟩ ∈
      (Barista.main baristaNoResource).trace :=
  have w := setup_error_handling otelNoResource Context.background "web" "dev" []
    ⟨"resource: detection failed", []⟩
    webNoResource ⟨"resource: detection failed", []⟩
    proxyNoResource sampleProxyConfig ⟨"resource: detection failed", []⟩
    baristaNoResource sampleBaristaConfig ⟨"resource: detection failed", []⟩
    rfl (by decide) (by decide) (by decide) rfl rfl rfl rfl
  ⟨w.2.1.1, w.2.2.1.1, w.2.2.2.1⟩

/-! ## Migration routines -/

theorem counterConnect_eq (env : MigrateEnv) (db : String) (n : Nat) (err : Option Error)
    (t : List MigEvent) :
    counterConnect env db n err t = connectLoop (counterSourceURL env) env db n err t := by
  induction n generalizing err t with
  | zero => rfl
  | succ n ih =>
    simp only [counterConnect, connectLoop]
    cases env.migrateNew (n + 1) (counterSourceURL env) db with
    | none => rfl
    | some e => exact ih _ _

theorem kitchenConnect_eq (env : MigrateEnv) (db : String) (n : Nat) (err : Option Error)
    (t : List MigEvent) :
    kitchenConnect env db n err t = connectLoop (kitchenSourceURL env) env db n err t := by
  induction n generalizing err t with
  | zero => rfl
  | succ n ih =>
    simp only [kitchenConnect, connectLoop]
    cases env.migrateNew (n + 1) (kitchenSourceURL env) db with
    | none => rfl
    | some e => exact ih _ _

/-- The retry loop: it ends without an error exactly when some call succeeds
(or it never ran and there was no error), it makes at most `n` calls, all `n`
when every call fails, and it stops at the first call that succeeds. -/
theorem connectLoop_spec (src : String) (env : MigrateEnv) (db : String) (n : Nat) :
    ∀ (err : Option Error) (t : List MigEvent),
      (((connectLoop src env db n err t).1 = none) ↔
        ((n = 0 ∧ err = none) ∨ ∃ k, 1 ≤ k ∧ k ≤ n ∧ env.migrateNew k src db = none)) ∧
      (connectLoop src env db n err t).2.countP MigEvent.isNew ≤ t.countP MigEvent.isNew + n ∧
      ((∀ k, 1 ≤ k → k ≤ n → env.migrateNew k src db ≠ none) →
        (connectLoop src env db n err t).2.countP MigEvent.isNew = t.countP MigEvent.isNew + n) ∧
      (∀ k, 1 ≤ k → k ≤ n → env.migrateNew k src db = none →
        (∀ j, k < j → j ≤ n → env.migrateNew j src db ≠ none) →
        (connectLoop src env db n err t).2.countP MigEvent.isNew =
          t.countP MigEvent.isNew + (n + 1 - k)) := by
  induction n with
  | zero =>
    intro err t
    refine ⟨?_, by simp [connectLoop], by simp [connectLoop], ?_⟩
    · simp only [connectLoop, true_and]
      constructor
      · intro h
        exact Or.inl h
      · rintro (h | ⟨k, h1, h2, -⟩)
        · exact h
        · omega
    · intro k h1 h2
      omega
  | succ n ih =>
    intro err t
    simp only [connectLoop]
    cases hm : env.migrateNew (n + 1) src db with
    | none =>
      simp only []
      refine ⟨?_, ?_, ?_, ?_⟩
      · simp only [true_iff]
        exact Or.inr ⟨n + 1, by omega, le_refl _, hm⟩
      · simp [List.countP_append, List.countP_cons, MigEvent.isNew]
      · intro h
        exact absurd hm (h (n + 1) (by omega) (le_refl _))
      · intro k h1 h2 h3 h4
        have hk : k = n + 1 := by
          by_contra hne
          exact h4 (n + 1) (by omega) (le_refl _) hm
        subst hk
        simp [List.countP_append, List.countP_cons, MigEvent.isNew]
    | some e =>
      simp only []
      obtain ⟨i1, i2, i3, i4⟩ := ih (some e)
        (t ++ [MigEvent.slogInfo "migration source" src] ++ [MigEvent.migrateNew src db] ++
          [MigEvent.slogInfo "Migrate: postgres is trying to connect" (toString (n + 1))] ++
          [MigEvent.sleep])
      have hc : (t ++ [MigEvent.slogInfo "migration source" src] ++ [MigEvent.migrateNew src db] ++
          [MigEvent.slogInfo "Migrate: postgres is trying to connect" (toString (n + 1))] ++
          [MigEvent.sleep]).countP MigEvent.isNew = t.countP MigEvent.isNew + 1 := by
        simp [List.countP_append, List.countP_cons, MigEvent.isNew]
      rw [hc] at i2 i3 i4
      refine ⟨?_, by omega, ?_, ?_⟩
      · rw [i1]
        constructor
        · rintro (⟨-, h⟩ | ⟨k, h1, h2, h3⟩)
          · cases h
          · exact Or.inr ⟨k, h1, by omega, h3⟩
        · rintro (⟨h, -⟩ | ⟨k, h1, h2, h3⟩)
          · omega
          · have hk : k ≠ n + 1 := by
              intro hk
              subst hk
              rw [hm] at h3
              cases h3
            exact Or.inr ⟨k, h1, by omega, h3⟩
      · intro h
        rw [i3 (fun k h1 h2 => h k h1 (by omega))]
        omega
      · intro k h1 h2 h3 h4
        have hk : k ≠ n + 1 := by
          intro hk
          subst hk
          rw [hm] at h3
          cases h3
        rw [i4 k h1 (by omega) h3 (fun j hj1 hj2 => h4 j hj1 (by omega))]
        omega

/-- What the code after the loop decides: exit status 2 exactly when the loop
left an error or `Up` failed with something other than `ErrNoChange`, a
normal return otherwise; it adds no `migrate.New` call. -/
theorem migrateFinish_spec (env : MigrateEnv) (r : Option Error × List MigEvent) :
    ((migrateFinish env r).exit = MigExit.osExit 2 ↔ (r.1 ≠ none ∨ upFails env)) ∧
    ((migrateFinish env r).exit = MigExit.returned ↔ ¬ (r.1 ≠ none ∨ upFails env)) ∧
    attemptsMade (migrateFinish env r) = r.2.countP MigEvent.isNew := by
  unfold migrateFinish upFails attemptsMade
  cases h1 : r.1 with
  | some e => simp [List.countP_append, MigEvent.isNew]
  | none =>
    simp only []
    by_cases h2 : env.up ≠ none ∧ errorsIs env.up "migrate.ErrNoChange" = false
    · rw [if_pos h2]
      simp [h2, List.countP_append, List.countP_cons, MigEvent.isNew]
    · rw [if_neg h2]
      split <;> simp [h2, List.countP_append, List.countP_cons, MigEvent.isNew]

/-- The two routines share this description, with their own migration source. -/
theorem migrateRun_spec (src : String) (env : MigrateEnv) (run : MigRun)
    (hrun : run = if unsetOrEmpty (env.lookupEnv "PG_URL") then
        ⟨[MigEvent.slogError "migrate: environment variable not declared: PG_URL"],
          MigExit.osExit 2⟩
      else migrateFinish env (connectLoop src env
        ((env.lookupEnv "PG_URL").getD "" ++ "?sslmode=disable") defaultAttempts none [])) :
    (run.exit = MigExit.osExit 2 ↔
      (unsetOrEmpty (env.lookupEnv "PG_URL") = true ∨ allAttemptsFail env src ∨ upFails env)) ∧
    (run.exit = MigExit.returned ↔
      ¬ (unsetOrEmpty (env.lookupEnv "PG_URL") = true ∨ allAttemptsFail env src ∨ upFails env)) ∧
    attemptsMade run ≤ 5 ∧
    (∀ k, unsetOrEmpty (env.lookupEnv "PG_URL") = false → firstSuccessAt env src k →
      attemptsMade run = 6 - k) := by
  subst hrun
  by_cases hpg : unsetOrEmpty (env.lookupEnv "PG_URL") = true
  · rw [if_pos hpg]
    refine ⟨by simp [hpg], by simp [hpg], by simp [attemptsMade, MigEvent.isNew], ?_⟩
    intro k h
    rw [hpg] at h
    cases h
  · rw [if_neg hpg]
    obtain ⟨l1, l2, l3, l4⟩ := connectLoop_spec src env
      ((env.lookupEnv "PG_URL").getD "" ++ "?sslmode=disable") defaultAttempts none []
    obtain ⟨f1, f2, f3⟩ := migrateFinish_spec env (connectLoop src env
      ((env.lookupEnv "PG_URL").getD "" ++ "?sslmode=disable") defaultAttempts none [])
    have hfail : (connectLoop src env ((env.lookupEnv "PG_URL").getD "" ++ "?sslmode=disable")
        defaultAttempts none []).1 ≠ none ↔ allAttemptsFail env src := by
      rw [Ne, l1]
      unfold allAttemptsFail
      constructor
      · intro h k h1 h2 h3
        exact h (Or.inr ⟨k, h1, h2, h3⟩)
      · rintro h (⟨h0, -⟩ | ⟨k, h1, h2, h3⟩)
        · simp [defaultAttempts] at h0
        · exact h k h1 h2 h3
    refine ⟨?_, ?_, ?_, ?_⟩
    · rw [f1, hfail]
      simp [hpg]
    · rw [f2, hfail]
      simp [hpg]
    · rw [f3]
      simpa [defaultAttempts] using l2
    · intro k _ hk
      rw [f3, l4 k hk.1 hk.2.1 hk.2.2.1 hk.2.2.2]
      simp [defaultAttempts]

/-- C8: for both migration routines, over the environment and the outcomes
of `migrate.New` and `Up`: the process exits with status 2 if and only if
PG_URL is unset or empty, or all 5 attempts to open the migrator fail, or `Up`
returns an error that is not `ErrNoChange`; in every other case, `ErrNoChange`
included, the routine returns normally. The loop makes at most 5 attempts and
stops at the first success. -/
theorem migrate_exit_status (env : MigrateEnv) :
    (((Counter.init env).exit = MigExit.osExit 2 ↔
        (unsetOrEmpty (env.lookupEnv "PG_URL") = true ∨
          allAttemptsFail env (counterSourceURL env) ∨ upFails env)) ∧
      ((Counter.init env).exit = MigExit.returned ↔
        ¬ (unsetOrEmpty (env.lookupEnv "PG_URL") = true ∨
          allAttemptsFail env (counterSourceURL env) ∨ upFails env)) ∧
      attemptsMade (Counter.init env) ≤ 5 ∧
      (∀ k, unsetOrEmpty (env.lookupEnv "PG_URL") = false →
        firstSuccessAt env (counterSourceURL env) k → attemptsMade (Counter.init env) = 6 - k)) ∧
    (((Kitchen.init env).exit = MigExit.osExit 2 ↔
        (unsetOrEmpty (env.lookupEnv "PG_URL") = true ∨
          allAttemptsFail env (kitchenSourceURL env) ∨ upFails env)) ∧
      ((Kitchen.init env).exit = MigExit.returned ↔
        ¬ (unsetOrEmpty (env.lookupEnv "PG_URL") = true ∨
          allAttemptsFail env (kitchenSourceURL env) ∨ upFails env)) ∧
      attemptsMade (Kitchen.init env) ≤ 5 ∧
      (∀ k, unsetOrEmpty (env.lookupEnv "PG_URL") = false →
        firstSuccessAt env (kitchenSourceURL env) k → attemptsMade (Kitchen.init env) = 6 - k)) := by
  constructor
  · apply migrateRun_spec
    unfold Counter.init
    simp only [counterConnect_eq]
  · apply migrateRun_spec
    unfold Kitchen.init
    simp only [kitchenConnect_eq]

/-- Witness for C8: the database answers at the third attempt and there is
nothing to migrate. -/
theorem migrate_exit_status_witness :
    attemptsMade (Counter.init sampleMigrateEnv) = 3 ∧
    (Kitchen.init sampleMigrateEnv).exit = MigExit.returned :=
  ⟨(migrate_exit_status sampleMigrateEnv).1.2.2.2 3 (by decide)
      ⟨by decide, by decide, by decide, fun j h1 h2 => by
        have h3 : j = 4 ∨ j = 5 := by
          simp only [defaultAttempts] at h2
          omega
        rcases h3 with h3 | h3 <;> subst h3 <;> decide⟩,
    by decide⟩

theorem filepathClean_ne_empty (path : String) : filepathClean path ≠ "" := by
  unfold filepathClean
  simp only []
  generalize (if (path.toList.head? == some '/') = true then "/" else "") ++
    "/".intercalate (List.map String.mk
      (cleanStack (path.toList.head? == some '/') (splitSlash path.toList) [])) = out
  by_cases h : out = ""
  · rw [if_pos h]
    decide
  · rw [if_neg h]
    exact h

theorem String.length_pos_of_ne_empty (s : String) (h : s ≠ "") : 0 < s.length := by
  obtain ⟨l⟩ := s
  cases l with
  | nil => exact absurd rfl h
  | cons c cs => simp [String.length]

theorem relativeSourceURL_eq (cur : String) :
    relativeSourceURL cur = "file://" ++ filepathDir (cur ++ "/../../..") ++ "/db/migrations" := by
  unfold relativeSourceURL migrationFilePath
  rw [String.append_assoc ("file://" ++ filepathDir (cur ++ "/../../..")) "/" "db/migrations"]
  rfl

theorem relativeSourceURL_ne_absolute (cur : String) :
    relativeSourceURL cur ≠ "file:///db/migrations" := by
  intro h
  have hl := congrArg String.length h
  rw [relativeSourceURL_eq] at hl
  simp only [String.length_append] at hl
  have hp := String.length_pos_of_ne_empty _ (filepathClean_ne_empty
    (String.mk ((cur ++ "/../../..").toList.reverse.dropWhile (fun c => c != '/')).reverse))
  have h1 : "file://".length = 7 := by decide
  have h2 : "/db/migrations".length = 14 := by decide
  have h3 : "file:///db/migrations".length = 21 := by decide
  unfold filepathDir at hl
  omega

theorem ParseBool_true_iff (str : String) :
    ParseBool str = (true, none) ↔ (ParseBool str).1 = true := by
  unfold ParseBool
  split
  · simp
  · split <;> simp

theorem unsetOrEmpty_iff (v : Option String) : unsetOrEmpty v = true ↔ v.getD "" = "" := by
  cases v with
  | none => simp [unsetOrEmpty]
  | some x => simp [unsetOrEmpty]

theorem counterSourceURL_eq (env : MigrateEnv) :
    counterSourceURL env =
      if getenvOf env.lookupEnv "IN_DOCKER" = "" then "file:///db/migrations"
      else describedSourceURL env.getwd (getenvOf env.lookupEnv "IN_DOCKER") := by
  unfold counterSourceURL describedSourceURL getenvOf
  simp only [relativeSourceURL_eq, ParseBool_true_iff]
  by_cases h1 : (env.lookupEnv "IN_DOCKER").getD "" = ""
  · simp [h1]
  · cases h2 : (ParseBool ((env.lookupEnv "IN_DOCKER").getD "")).1 <;> simp [h1, h2]

theorem kitchenSourceURL_eq (env : MigrateEnv) :
    kitchenSourceURL env =
      if getenvOf env.lookupEnv "IN_DOCKER" = "" then relativeSourceURL env.getwd
      else describedSourceURL env.getwd (getenvOf env.lookupEnv "IN_DOCKER") := by
  unfold kitchenSourceURL describedSourceURL getenvOf
  simp only [relativeSourceURL_eq, ParseBool_true_iff]
  by_cases h1 : (env.lookupEnv "IN_DOCKER").getD "" = ""
  · simp [h1]
  · cases h2 : (ParseBool ((env.lookupEnv "IN_DOCKER").getD "")).1 <;> simp [h1, h2]

/-- C10: for every working directory and every non-empty value of IN_DOCKER
the counter and kitchen routines compute the same migration source, the one
described for both: the absolute `file:///db/migrations` when the value parses
as boolean true, the repo-relative `file://<Dir(cwd/../../..)>/db/migrations`
when it parses as false or fails to parse. They differ exactly when IN_DOCKER
is unset or empty, where counter uses the absolute container path and kitchen
the repo-relative path. -/
theorem migration_source_agreement (env : MigrateEnv) :
    counterSourceURL env =
      (if getenvOf env.lookupEnv "IN_DOCKER" = "" then "file:///db/migrations"
        else describedSourceURL env.getwd (getenvOf env.lookupEnv "IN_DOCKER")) ∧
    kitchenSourceURL env =
      (if getenvOf env.lookupEnv "IN_DOCKER" = "" then
          "file://" ++ filepathDir (env.getwd ++ "/../../..") ++ "/db/migrations"
        else describedSourceURL env.getwd (getenvOf env.lookupEnv "IN_DOCKER")) ∧
    (counterSourceURL env ≠ kitchenSourceURL env ↔
      unsetOrEmpty (env.lookupEnv "IN_DOCKER") = true) ∧
    (counterSourceURL env = kitchenSourceURL env ↔
      getenvOf env.lookupEnv "IN_DOCKER" ≠ "") ∧
    (ParseBool (getenvOf env.lookupEnv "IN_DOCKER") = (true, none) ↔
      (getenvOf env.lookupEnv "IN_DOCKER" ∈ ["1", "t", "T", "true", "TRUE", "True"])) := by
  have hk := kitchenSourceURL_eq env
  have hc := counterSourceURL_eq env
  have hd : counterSourceURL env = kitchenSourceURL env ↔
      getenvOf env.lookupEnv "IN_DOCKER" ≠ "" := by
    rw [hk, hc]
    by_cases h1 : getenvOf env.lookupEnv "IN_DOCKER" = ""
    · simp only [h1, if_true, ne_eq, not_true_eq_false, iff_false]
      exact fun h => relativeSourceURL_ne_absolute _ h.symm
    · simp [h1]
  refine ⟨hc, ?_, ?_, hd, ?_⟩
  · rw [hk, relativeSourceURL_eq]
  · rw [Ne, hd, unsetOrEmpty_iff]
    simp [getenvOf]
  · unfold ParseBool
    split
    · simp_all
    · split <;> simp_all

end Coffeeshop
